import Mathlib

/-!
# Fledge storage plugins: pooled connection entry points

A shallow embedding of the C entry points of the Postgres storage plugin
(`C/plugins/storage/postgres/plugin.cpp`) and of the sqlitememory storage
plugin (`C/plugins/storage/sqlitememory/plugin.cpp`).

Every entry point is a state transformer on a `World`: the connection manager
the handle points to, the backing store the connections talk to, and the log
of the calls made on the manager and on the connections.  The classes
`ConnectionManager`, `MemConnectionManager` and `Connection` are declared in
headers that are not part of the sources at hand; their member functions are
parameters of the entry points (`ConnectionManager μ`, `Connection σ`).

The file goes on with the storage asset tracker
(`C/common/storage_asset_tracking.cpp`), the OCS token exchange
(`C/plugins/common/ocs.cpp`) and the 24-bit case of the test card plugin
(`tests/system/plugins/south/fledge-south-testcard/plugin.cpp`), embedded the
same way: what a missing header or library supplies is a parameter.
-/

namespace Fledge

/-! ## Calls and the call log -/

/-- A `Connection *`: the identity of a pooled session, `none` for the null pointer. -/
abbrev ConnPtr := Option Nat

/-- A member function of `Connection` together with the arguments it was called with
(the `std::string &` result argument left out: it is an output). -/
inductive Operation where
  | insert (table payload : String)
  | retrieve (table query : String)
  | update (table payload : String)
  | deleteRows (table condition : String)
  | appendReadings (readings : String)
  | fetchReadings (id blksize : Nat)
  | retrieveReadings (condition : String)
  | purgeReadings (age flags sent : Nat)
  | purgeReadingsByRows (rows flags sent : Nat)
  | create_table_snapshot (table id : String)
  | load_table_snapshot (table id : String)
  | delete_table_snapshot (table id : String)
  | get_table_snapshots (table : String)
  | create_schema (payload : String)
  deriving DecidableEq, Repr

/-- One entry of the call log. -/
inductive Event where
  | growPool (n : Nat)
  | allocate (c : ConnPtr)
  | release (c : ConnPtr)
  | shutdown
  | call (c : ConnPtr) (op : Operation)
  deriving DecidableEq, Repr

/-- The member functions of the connection manager the plugins call, over a
manager state `μ`.  `inUse` observes the connections currently handed out. -/
structure ConnectionManager (μ : Type) where
  growPool : Nat → μ → μ
  allocate : μ → ConnPtr × μ
  release : ConnPtr → μ → μ
  shutdown : μ → μ
  inUse : μ → List Nat

/-- The state an entry point runs in: the manager behind the handle, the
backing store, and the log of calls made so far (oldest first). -/
structure World (μ σ : Type) where
  manager : μ
  store : σ
  trace : List Event

section Calls

variable {μ σ : Type}

/-- The call of manager->growPool(n). -/
def growPool (M : ConnectionManager μ) (n : Nat) (w : World μ σ) : World μ σ :=
  { w with manager := M.growPool n w.manager, trace := w.trace ++ [Event.growPool n] }

/-- The call of manager->allocate(). -/
def allocate (M : ConnectionManager μ) (w : World μ σ) : ConnPtr × World μ σ :=
  let r := M.allocate w.manager
  (r.1, { w with manager := r.2, trace := w.trace ++ [Event.allocate r.1] })

/-- The call of manager->release(connection). -/
def release (M : ConnectionManager μ) (connection : ConnPtr) (w : World μ σ) : World μ σ :=
  { w with manager := M.release connection w.manager,
           trace := w.trace ++ [Event.release connection] }

/-- The call of manager->shutdown(). -/
def shutdown (M : ConnectionManager μ) (w : World μ σ) : World μ σ :=
  { w with manager := M.shutdown w.manager, trace := w.trace ++ [Event.shutdown] }

/-- The call of a member function of `connection`: it is logged with its
arguments and runs on the backing store. -/
def invoke {α : Type} (connection : ConnPtr) (op : Operation) (f : σ → α × σ)
    (w : World μ σ) : α × World μ σ :=
  let r := f w.store
  (r.1, { w with store := r.2, trace := w.trace ++ [Event.call connection op] })

end Calls

/-! ## The connection pool -/

/-- Modelled from the spec: the connection manager (`connection_manager.cpp` is
absent).  A pool owns sessions numbered from 0; `idle` and `inUse` hold the ones
waiting and the ones handed out, `sessions` counts the ones created, `closed`
is set by `shutdown`. -/
structure Pool where
  idle : List Nat
  inUse : List Nat
  sessions : Nat
  closed : Bool
  deriving DecidableEq, Repr

namespace Pool

/-- Modelled from the spec: `growPool(n)` of the absent connection manager
creates `n` additional backing sessions and adds them to the idle set (the
backing store accepts every session here). -/
def growPool (n : Nat) (p : Pool) : Pool :=
  { p with idle := p.idle ++ (List.range n).map (fun i => p.sessions + i),
           sessions := p.sessions + n }

/-- Modelled from the spec: `allocate()` of the absent connection manager
returns an idle connection, marking it in-use; if none is idle the pool grows
by one session, without a cap; on a closed pool it fails (no connection,
nothing changes). -/
def allocate (p : Pool) : ConnPtr × Pool :=
  if p.closed then (none, p)
  else
    match p.idle with
    | c :: rest => (some c, { p with idle := rest, inUse := c :: p.inUse })
    | [] => (some p.sessions, { p with inUse := p.sessions :: p.inUse,
                                       sessions := p.sessions + 1 })

/-- Modelled from the spec: `release(connection)` of the absent connection
manager returns the connection to the idle set; a connection the pool has not
handed out changes nothing; on a closed pool the released connection is closed
instead of going back to the idle set. -/
def release (connection : ConnPtr) (p : Pool) : Pool :=
  match connection with
  | none => p
  | some c =>
    if c ∈ p.inUse then
      { p with inUse := p.inUse.erase c,
               idle := if p.closed then p.idle else p.idle ++ [c] }
    else p

/-- Modelled from the spec: `shutdown()` of the absent connection manager
drains the idle connections and blocks new `allocate()` calls. -/
def shutdown (p : Pool) : Pool :=
  { p with idle := [], closed := true }

/-- The pool as the manager behind a plugin handle. -/
def manager : ConnectionManager Pool where
  growPool := Pool.growPool
  allocate := Pool.allocate
  release := Pool.release
  shutdown := Pool.shutdown
  inUse := Pool.inUse

end Pool

/-! ## The Postgres plugin -/

namespace Postgres

/-- The member functions of the Postgres `Connection` the plugin calls, over a
backing store `σ`.  Each takes the connection it is called on and the
arguments of the C++ call; a `std::string &` result argument is returned as the
string the call left in it (it is empty before the call).  The `unsigned long`
and `unsigned int` arguments are naturals: the plugin hands them on without
arithmetic.  The reading operations report success as a `Bool`, as `retrieve`
and `get_table_snapshots` do. -/
structure Connection (σ : Type) where
  insert : ConnPtr → String → String → σ → Int × σ
  retrieve : ConnPtr → String → String → σ → (Bool × String) × σ
  update : ConnPtr → String → String → σ → Int × σ
  deleteRows : ConnPtr → String → String → σ → Int × σ
  appendReadings : ConnPtr → String → σ → Int × σ
  fetchReadings : ConnPtr → Nat → Nat → σ → (Bool × String) × σ
  retrieveReadings : ConnPtr → String → σ → (Bool × String) × σ
  purgeReadings : ConnPtr → Nat → Nat → Nat → σ → (Bool × String) × σ
  purgeReadingsByRows : ConnPtr → Nat → Nat → Nat → σ → (Bool × String) × σ
  create_table_snapshot : ConnPtr → String → String → σ → Int × σ
  load_table_snapshot : ConnPtr → String → String → σ → Int × σ
  delete_table_snapshot : ConnPtr → String → String → σ → Int × σ
  get_table_snapshots : ConnPtr → String → σ → (Bool × String) × σ
  create_schema : ConnPtr → String → σ → Int × σ

/-- The macro DEFAULT_SCHEMA. -/
def DEFAULT_SCHEMA : String := "fledge"

/-- The item `poolSize` of `default_config`, as (member, value) pairs. -/
def default_config : List (String × List (String × String)) :=
  [("poolSize",
    [("description", "Connection pool size"),
     ("type", "integer"),
     ("default", "5"),
     ("displayName", "Pool Size"),
     ("order", "1")])]

section EntryPoints

variable {μ σ : Type} (M : ConnectionManager μ) (C : Connection σ)

/-- The entry point `plugin_init`: `getInstance()` is the manager of the world;
the handle returned is that manager. -/
def plugin_init (w : World μ σ) : μ × World μ σ :=
  let w := growPool M 5 w
  (w.manager, w)

/-- The entry point `plugin_common_insert`. -/
def plugin_common_insert (schema : Option String) (table data : String)
    (w : World μ σ) : Int × World μ σ :=
  let (connection, w) := allocate M w
  let schema := schema.getD DEFAULT_SCHEMA
  let (result, w) := invoke connection (.insert (schema ++ "." ++ table) data)
    (C.insert connection (schema ++ "." ++ table) data) w
  let w := release M connection w
  (result, w)

/-- The entry point `plugin_common_retrieve`; `none` is the NULL return. -/
def plugin_common_retrieve (schema : Option String) (table query : String)
    (w : World μ σ) : Option String × World μ σ :=
  let (connection, w) := allocate M w
  let schema := schema.getD DEFAULT_SCHEMA
  let ((rval, results), w) := invoke connection (.retrieve (schema ++ "." ++ table) query)
    (C.retrieve connection (schema ++ "." ++ table) query) w
  let w := release M connection w
  if rval then (some results, w) else (none, w)

/-- The entry point `plugin_common_update`. -/
def plugin_common_update (schema : Option String) (table data : String)
    (w : World μ σ) : Int × World μ σ :=
  let (connection, w) := allocate M w
  let schema := schema.getD DEFAULT_SCHEMA
  let (result, w) := invoke connection (.update (schema ++ "." ++ table) data)
    (C.update connection (schema ++ "." ++ table) data) w
  let w := release M connection w
  (result, w)

/-- The entry point `plugin_common_delete`. -/
def plugin_common_delete (schema : Option String) (table condition : String)
    (w : World μ σ) : Int × World μ σ :=
  let (connection, w) := allocate M w
  let schema := schema.getD DEFAULT_SCHEMA
  let (result, w) := invoke connection (.deleteRows (schema ++ "." ++ table) condition)
    (C.deleteRows connection (schema ++ "." ++ table) condition) w
  let w := release M connection w
  (result, w)

/-- The entry point `plugin_reading_append`. -/
def plugin_reading_append (readings : String) (w : World μ σ) : Int × World μ σ :=
  let (connection, w) := allocate M w
  let (result, w) := invoke connection (.appendReadings readings)
    (C.appendReadings connection readings) w
  let w := release M connection w
  (result, w)

/-- The entry point `plugin_reading_fetch`; the value of `fetchReadings` is dropped. -/
def plugin_reading_fetch (id blksize : Nat) (w : World μ σ) : Option String × World μ σ :=
  let (connection, w) := allocate M w
  let ((_, resultSet), w) := invoke connection (.fetchReadings id blksize)
    (C.fetchReadings connection id blksize) w
  let w := release M connection w
  (some resultSet, w)

/-- The entry point `plugin_reading_retrieve`; the value of `retrieveReadings` is dropped. -/
def plugin_reading_retrieve (condition : String) (w : World μ σ) : Option String × World μ σ :=
  let (connection, w) := allocate M w
  let ((_, results), w) := invoke connection (.retrieveReadings condition)
    (C.retrieveReadings connection condition) w
  let w := release M connection w
  (some results, w)

/-- The entry point `plugin_reading_purge`.  The macro STORAGE_PURGE_SIZE comes
from a header that is not at hand: its value is a parameter. -/
def plugin_reading_purge (STORAGE_PURGE_SIZE : Nat) (param flags sent : Nat)
    (w : World μ σ) : Option String × World μ σ :=
  let (connection, w) := allocate M w
  let ((_, results), w) :=
    if flags &&& STORAGE_PURGE_SIZE ≠ 0 then
      invoke connection (.purgeReadingsByRows param flags sent)
        (C.purgeReadingsByRows connection param flags sent) w
    else
      let age := param
      invoke connection (.purgeReadings age flags sent)
        (C.purgeReadings connection age flags sent) w
  let w := release M connection w
  (some results, w)

/-- The entry point `plugin_shutdown`. -/
def plugin_shutdown (w : World μ σ) : Bool × World μ σ :=
  let w := shutdown M w
  (true, w)

/-- The entry point `plugin_create_table_snapshot`. -/
def plugin_create_table_snapshot (table id : String) (w : World μ σ) : Int × World μ σ :=
  let (connection, w) := allocate M w
  let (result, w) := invoke connection (.create_table_snapshot table id)
    (C.create_table_snapshot connection table id) w
  let w := release M connection w
  (result, w)

/-- The entry point `plugin_load_table_snapshot`. -/
def plugin_load_table_snapshot (table id : String) (w : World μ σ) : Int × World μ σ :=
  let (connection, w) := allocate M w
  let (result, w) := invoke connection (.load_table_snapshot table id)
    (C.load_table_snapshot connection table id) w
  let w := release M connection w
  (result, w)

/-- The entry point `plugin_delete_table_snapshot`. -/
def plugin_delete_table_snapshot (table id : String) (w : World μ σ) : Int × World μ σ :=
  let (connection, w) := allocate M w
  let (result, w) := invoke connection (.delete_table_snapshot table id)
    (C.delete_table_snapshot connection table id) w
  let w := release M connection w
  (result, w)

/-- The entry point `plugin_get_table_snapshots`; `none` is the NULL return. -/
def plugin_get_table_snapshots (table : String) (w : World μ σ) : Option String × World μ σ :=
  let (connection, w) := allocate M w
  let ((rval, results), w) := invoke connection (.get_table_snapshots table)
    (C.get_table_snapshots connection table) w
  let w := release M connection w
  (if rval then some results else none, w)

/-- The entry point `plugin_createSchema`. -/
def plugin_createSchema (payload : String) (w : World μ σ) : Int × World μ σ :=
  let (connection, w) := allocate M w
  let (result, w) := invoke connection (.create_schema payload)
    (C.create_schema connection payload) w
  let w := release M connection w
  (result, w)

/-- The entry point `plugin_schema_update`: the schema gets its default and is
not used after that. -/
def plugin_schema_update (schema : Option String) (payload : String)
    (w : World μ σ) : Int × World μ σ :=
  let (connection, w) := allocate M w
  let _schema := schema.getD DEFAULT_SCHEMA
  let (result, w) := invoke connection (.create_schema payload)
    (C.create_schema connection payload) w
  let w := release M connection w
  (result, w)

end EntryPoints

/-- A call of one of the entry points that borrow a connection, with its arguments. -/
inductive Request where
  | common_insert (schema : Option String) (table data : String)
  | common_retrieve (schema : Option String) (table query : String)
  | common_update (schema : Option String) (table data : String)
  | common_delete (schema : Option String) (table condition : String)
  | reading_append (readings : String)
  | reading_fetch (id blksize : Nat)
  | reading_retrieve (condition : String)
  | reading_purge (param flags sent : Nat)
  | create_table_snapshot (table id : String)
  | load_table_snapshot (table id : String)
  | delete_table_snapshot (table id : String)
  | get_table_snapshots (table : String)
  | createSchema (payload : String)
  | schema_update (schema : Option String) (payload : String)
  deriving DecidableEq, Repr

/-- The world an entry point call leaves behind. -/
def Request.run {μ σ : Type} (M : ConnectionManager μ) (C : Connection σ)
    (STORAGE_PURGE_SIZE : Nat) (w : World μ σ) : Request → World μ σ
  | .common_insert schema table data => (plugin_common_insert M C schema table data w).2
  | .common_retrieve schema table query => (plugin_common_retrieve M C schema table query w).2
  | .common_update schema table data => (plugin_common_update M C schema table data w).2
  | .common_delete schema table condition =>
      (plugin_common_delete M C schema table condition w).2
  | .reading_append readings => (plugin_reading_append M C readings w).2
  | .reading_fetch id blksize => (plugin_reading_fetch M C id blksize w).2
  | .reading_retrieve condition => (plugin_reading_retrieve M C condition w).2
  | .reading_purge param flags sent =>
      (plugin_reading_purge M C STORAGE_PURGE_SIZE param flags sent w).2
  | .create_table_snapshot table id => (plugin_create_table_snapshot M C table id w).2
  | .load_table_snapshot table id => (plugin_load_table_snapshot M C table id w).2
  | .delete_table_snapshot table id => (plugin_delete_table_snapshot M C table id w).2
  | .get_table_snapshots table => (plugin_get_table_snapshots M C table w).2
  | .createSchema payload => (plugin_createSchema M C payload w).2
  | .schema_update schema payload => (plugin_schema_update M C schema payload w).2

/-- The store a logged call stands for: the member function the entry names,
run once on `connection` with the arguments of the entry. -/
def Connection.storeAfter {σ : Type} (C : Connection σ) (connection : ConnPtr) :
    Operation → σ → σ
  | .insert table payload, s => (C.insert connection table payload s).2
  | .retrieve table query, s => (C.retrieve connection table query s).2
  | .update table payload, s => (C.update connection table payload s).2
  | .deleteRows table condition, s => (C.deleteRows connection table condition s).2
  | .appendReadings readings, s => (C.appendReadings connection readings s).2
  | .fetchReadings id blksize, s => (C.fetchReadings connection id blksize s).2
  | .retrieveReadings condition, s => (C.retrieveReadings connection condition s).2
  | .purgeReadings age flags sent, s => (C.purgeReadings connection age flags sent s).2
  | .purgeReadingsByRows rows flags sent, s =>
      (C.purgeReadingsByRows connection rows flags sent s).2
  | .create_table_snapshot table id, s => (C.create_table_snapshot connection table id s).2
  | .load_table_snapshot table id, s => (C.load_table_snapshot connection table id s).2
  | .delete_table_snapshot table id, s => (C.delete_table_snapshot connection table id s).2
  | .get_table_snapshots table, s => (C.get_table_snapshots connection table s).2
  | .create_schema payload, s => (C.create_schema connection payload s).2

end Postgres

/-! ## The sqlitememory plugin -/

namespace SqliteMemory

/-- The member functions of the sqlitememory `Connection` the plugin calls,
over a backing store `σ`; results as for the Postgres connection. -/
structure Connection (σ : Type) where
  appendReadings : ConnPtr → String → σ → Int × σ
  fetchReadings : ConnPtr → Nat → Nat → σ → (Bool × String) × σ
  retrieveReadings : ConnPtr → String → σ → (Bool × String) × σ
  purgeReadings : ConnPtr → Nat → Nat → Nat → σ → (Bool × String) × σ

/-- The exceptions the plugin throws. -/
inductive PluginException where
  | PluginNotImplementedException (message : String)
  deriving DecidableEq, Repr

/-- What a call of `plugin_reading_purge` ends with: a returned value or a
thrown exception. -/
inductive Result (α : Type) where
  | returned (value : α)
  | raised (e : PluginException)
  deriving DecidableEq, Repr

section EntryPoints

variable {μ σ : Type} (M : ConnectionManager μ) (C : Connection σ)

/-- The entry point `plugin_init` (the manager is a `MemConnectionManager`). -/
def plugin_init (w : World μ σ) : μ × World μ σ :=
  let w := growPool M 5 w
  (w.manager, w)

/-- The entry point `plugin_reading_append`. -/
def plugin_reading_append (readings : String) (w : World μ σ) : Int × World μ σ :=
  let (connection, w) := allocate M w
  let (result, w) := invoke connection (.appendReadings readings)
    (C.appendReadings connection readings) w
  let w := release M connection w
  (result, w)

/-- The entry point `plugin_reading_fetch`. -/
def plugin_reading_fetch (id blksize : Nat) (w : World μ σ) : Option String × World μ σ :=
  let (connection, w) := allocate M w
  let ((_, resultSet), w) := invoke connection (.fetchReadings id blksize)
    (C.fetchReadings connection id blksize) w
  let w := release M connection w
  (some resultSet, w)

/-- The entry point `plugin_reading_retrieve`. -/
def plugin_reading_retrieve (condition : String) (w : World μ σ) : Option String × World μ σ :=
  let (connection, w) := allocate M w
  let ((_, results), w) := invoke connection (.retrieveReadings condition)
    (C.retrieveReadings connection condition) w
  let w := release M connection w
  (some results, w)

/-- The entry point `plugin_reading_purge`: the throw leaves the function at
once, with the world as it is at that point. -/
def plugin_reading_purge (param flags sent : Nat)
    (w : World μ σ) : Result (Option String) × World μ σ :=
  let (connection, w) := allocate M w
  if flags &&& 0x0002 ≠ 0 then
    (.raised (.PluginNotImplementedException
      "Purge by size is not supported by \x27SQLite\x27 storage engine."), w)
  else
    let age := param
    let ((_, results), w) := invoke connection (.purgeReadings age flags sent)
      (C.purgeReadings connection age flags sent) w
    let w := release M connection w
    (.returned (some results), w)

/-- The entry point `plugin_shutdown`. -/
def plugin_shutdown (w : World μ σ) : Bool × World μ σ :=
  let w := shutdown M w
  (true, w)

end EntryPoints

end SqliteMemory

/-! ## Concrete inputs -/

/-- A pool right after construction: no session yet. -/
def Pool.empty : Pool :=
  { idle := [], inUse := [], sessions := 0, closed := false }

/-- A Postgres connection to a store that is down: every operation reports
failure (-1 or false) and leaves its result string empty. -/
def Postgres.failing : Postgres.Connection Unit where
  insert := fun _ _ _ s => (-1, s)
  retrieve := fun _ _ _ s => ((false, ""), s)
  update := fun _ _ _ s => (-1, s)
  deleteRows := fun _ _ _ s => (-1, s)
  appendReadings := fun _ _ s => (-1, s)
  fetchReadings := fun _ _ _ s => ((false, ""), s)
  retrieveReadings := fun _ _ s => ((false, ""), s)
  purgeReadings := fun _ _ _ _ s => ((false, ""), s)
  purgeReadingsByRows := fun _ _ _ _ s => ((false, ""), s)
  create_table_snapshot := fun _ _ _ s => (-1, s)
  load_table_snapshot := fun _ _ _ s => (-1, s)
  delete_table_snapshot := fun _ _ _ s => (-1, s)
  get_table_snapshots := fun _ _ s => ((false, ""), s)
  create_schema := fun _ _ s => (-1, s)

/-- A sqlitememory connection to an empty readings buffer, kept as the number
of readings stored: every operation succeeds. -/
def SqliteMemory.counting : SqliteMemory.Connection Nat where
  appendReadings := fun _ _ n => (1, n + 1)
  fetchReadings := fun _ _ _ n => ((true, "rows: 0"), n)
  retrieveReadings := fun _ _ n => ((true, "rows: 0"), n)
  purgeReadings := fun _ _ _ _ _ => ((true, "removed: 0"), 0)

/-- The world `plugin_init` leaves behind on a new pool with the store down. -/
def Postgres.world0 : World Pool Unit :=
  (Postgres.plugin_init Pool.manager
    { manager := Pool.empty, store := (), trace := [] }).2

/-- The world `plugin_init` leaves behind on a new pool with an empty buffer. -/
def SqliteMemory.world0 : World Pool Nat :=
  (SqliteMemory.plugin_init Pool.manager
    { manager := Pool.empty, store := 0, trace := [] }).2

/-! ## The storage asset tracker (`C/common/storage_asset_tracking.cpp`)

The tracker takes strings apart by position, so a `std::string` is held here
as what it is, a sequence of bytes. -/

/-- A `std::string`: its bytes, in order. -/
abbrev CppString := List UInt8

/-- The bytes of a text in UTF-8: how a string literal of the source is held. -/
def utf8 (text : String) : CppString := text.data.flatMap String.utf8EncodeChar

/-- The fields of a `StorageAssetTrackingTuple` the tracker reads, in the order
of the constructor arguments (service, plugin, asset, event, deprecated,
datapoints, maxCount). -/
structure StorageAssetTrackingTuple where
  m_serviceName : CppString
  m_pluginName : CppString
  m_assetName : CppString
  m_eventName : CppString
  m_deprecated : Bool
  m_datapoints : CppString
  m_maxCount : Int
  deriving DecidableEq, Repr

/-- The arguments of one call of `ManagementClient::addAssetTrackingTuple`. -/
structure AddAssetTrackingTupleCall where
  service : CppString
  plugin : CppString
  asset : CppString
  event : CppString
  datapoints : CppString
  maxCount : Int
  deriving DecidableEq, Repr

/-- The member function of `ManagementClient` the tracker calls, over the state
`δ` of the management service: it reports whether the database operation
succeeded. -/
structure ManagementClient (δ : Type) where
  addAssetTrackingTuple :
    CppString → CppString → CppString → CppString → CppString → Int → δ → Bool × δ

/-- The state of a `StorageAssetTracker`: its members, the management service
behind `m_mgtClient`, and the log of the calls made on the management client
(oldest first).  The cache lists the tuples its entries point to. -/
structure StorageAssetTracker (δ : Type) where
  m_service : CppString
  m_plugin : CppString
  m_event : CppString
  storageAssetTrackerTuplesCache : List StorageAssetTrackingTuple
  mgt : δ
  calls : List AddAssetTrackingTupleCall

namespace StorageAssetTracker

/-- The key equality of the cache, `key_equal(query, entry)`.  The header that
declares the cache and the comparison of two tuples is not at hand: the
equality is a parameter of every cache operation. -/
abbrev KeyEqual := StorageAssetTrackingTuple → StorageAssetTrackingTuple → Bool

/-- The call `std::unordered_set::find`: an entry equal to the key, or `none`
for `end()`. -/
def find (keyEq : KeyEqual) (cache : List StorageAssetTrackingTuple)
    (key : StorageAssetTrackingTuple) : Option StorageAssetTrackingTuple :=
  cache.find? (fun entry => keyEq key entry)

/-- The call `std::unordered_set::insert`: the value is added unless an entry
equal to it is there. -/
def insert (keyEq : KeyEqual) (cache : List StorageAssetTrackingTuple)
    (value : StorageAssetTrackingTuple) : List StorageAssetTrackingTuple :=
  match find keyEq cache value with
  | some _ => cache
  | none => value :: cache

section Members

variable {δ : Type} (keyEq : KeyEqual) (client : ManagementClient δ)

/-- The member function `checkStorageAssetTrackingCache`. -/
def checkStorageAssetTrackingCache (self : StorageAssetTracker δ)
    (tuple : StorageAssetTrackingTuple) : Bool :=
  match find keyEq self.storageAssetTrackerTuplesCache tuple with
  | none => false
  | some it =>
    if it.m_maxCount ≥ tuple.m_maxCount then true
    else false

/-- The member function `findStorageAssetTrackingCache`; `none` is NULL. -/
def findStorageAssetTrackingCache (self : StorageAssetTracker δ)
    (tuple : StorageAssetTrackingTuple) : Option StorageAssetTrackingTuple :=
  match find keyEq self.storageAssetTrackerTuplesCache tuple with
  | none => none
  | some it => some it

/-- The member function `addStorageAssetTrackingTuple(StorageAssetTrackingTuple&)`. -/
def addStorageAssetTrackingTuple (self : StorageAssetTracker δ)
    (tuple : StorageAssetTrackingTuple) : StorageAssetTracker δ :=
  match find keyEq self.storageAssetTrackerTuplesCache tuple with
  | none =>
    let r := client.addAssetTrackingTuple tuple.m_serviceName tuple.m_pluginName
      tuple.m_assetName tuple.m_eventName tuple.m_datapoints tuple.m_maxCount self.mgt
    let self := { self with
      mgt := r.2,
      calls := self.calls ++ [{ service := tuple.m_serviceName, plugin := tuple.m_pluginName,
                                asset := tuple.m_assetName, event := tuple.m_eventName,
                                datapoints := tuple.m_datapoints, maxCount := tuple.m_maxCount }] }
    if r.1 then
      { self with storageAssetTrackerTuplesCache :=
          (insert keyEq self.storageAssetTrackerTuplesCache tuple) }
    else self
  | some _ => self

end Members

/-- The tracker the constructor builds when `getPluginInfo` read the plugin
name `plugin`: service "storage", event "store", empty cache. -/
def constructed {δ : Type} (plugin : CppString) (mgt : δ) : StorageAssetTracker δ :=
  { m_service := utf8 "storage", m_plugin := plugin, m_event := utf8 "store",
    storageAssetTrackerTuplesCache := [], mgt := mgt, calls := [] }

/-- Modelled from the spec: the key equality of the tracking cache
(`storage_asset_tracking.h`, which declares it, is absent).  The cache records
which (service, asset) pairs have been reported: two tuples are equal when
their service names agree and their asset names agree. -/
def sameServiceAsset : KeyEqual := fun a b =>
  a.m_serviceName == b.m_serviceName && a.m_assetName == b.m_assetName

/-- A key equality that compares the four names and the datapoints of two
tuples and leaves `m_maxCount` out. -/
def sameNames : KeyEqual := fun a b =>
  a.m_serviceName == b.m_serviceName && a.m_pluginName == b.m_pluginName &&
  a.m_assetName == b.m_assetName && a.m_eventName == b.m_eventName &&
  a.m_datapoints == b.m_datapoints

/-- A management service that stores every tuple it is given. -/
def accepting : ManagementClient Nat where
  addAssetTrackingTuple := fun _ _ _ _ _ _ n => (true, n + 1)

/-- A tuple of the storage service for the asset "pump" with at most `maxCount`
datapoints. -/
def pump (maxCount : Int) : StorageAssetTrackingTuple :=
  { m_serviceName := utf8 "storage", m_pluginName := utf8 "sqlite",
    m_assetName := utf8 "pump", m_eventName := utf8 "store", m_deprecated := false,
    m_datapoints := utf8 "speed", m_maxCount := maxCount }

end StorageAssetTracker

namespace OCS

/-- A parsed JSON document, as rapidjson holds it: the members of an object in
the order of the text. -/
inductive Json where
  | null
  | bool (b : Bool)
  | number (n : Int)
  | string (s : String)
  | array (items : List Json)
  | object (members : List (String × Json))

/-- The request `retrieveToken` hands to the HTTPS sender. -/
structure TokenRequest where
  host : String
  authMethod : String
  method : String
  path : String
  header : List (String × String)
  payload : String
  deriving DecidableEq, Repr

/-- What `ocs.cpp` takes from its headers and libraries, none of which is at
hand: the macros of `ocs.h`, the helpers of `string_utils.h`, the rapidjson
parser (`none` for a parse error) and the HTTPS sender, which either throws
(`Except.error` with the text of `what()`) or gives the HTTP status code
together with the response text `getHTTPResponse()` then returns. -/
structure Environment where
  OCS_HOST : String
  URL_RETRIEVE_TOKEN : String
  PAYLOAD_RETRIEVE_TOKEN : String
  urlEncode : String → String
  StringReplace : String → String → String → String
  parse : String → Option Json
  sendRequest : TokenRequest → Except String (Int × String)

/-- The text a `const char *` to the characters of a string stands for: the
characters before the first NUL. -/
def c_str (s : String) : String := ⟨s.data.takeWhile (fun ch => ch != Char.ofNat 0)⟩

/-- The member function `OCS::extractToken`.  The parser reads
`response.c_str()`, and `GetString()` hands the value over as a `const char *`,
so the token is the value up to its first NUL.  `HasMember` on a document that
is not an object and `GetString` on a member that is not a string fail an
assertion of rapidjson: the result is `none` there. -/
def extractToken (env : Environment) (response : String) : Option String :=
  let token := ""
  match env.parse (c_str response) with
  | none => some token
  | some (Json.object members) =>
    match members.lookup "access_token" with
    | some (Json.string value) => some (c_str value)
    | some _ => none
    | none => some token
  | some _ => none

/-- The member function `OCS::retrieveToken`. -/
def retrieveToken (env : Environment) (clientId clientSecret : String) : Option String :=
  let token := ""
  let header := [("Content-Type", "application/x-www-form-urlencoded"), ("Accept", " text/plain")]
  let payload := env.PAYLOAD_RETRIEVE_TOKEN
  let payload := env.StringReplace payload "CLIENT_ID_PLACEHOLDER" (env.urlEncode clientId)
  let payload := env.StringReplace payload "CLIENT_SECRET_ID_PLACEHOLDER"
    (env.urlEncode clientSecret)
  let authMethod := "a"
  match env.sendRequest { host := env.OCS_HOST, authMethod := authMethod, method := "POST",
                          path := env.URL_RETRIEVE_TOKEN, header := header,
                          payload := payload } with
  | Except.ok (httpCode, response) =>
    if httpCode ≥ 200 ∧ httpCode ≤ 399 then extractToken env response
    else some token
  | Except.error _ => some token

/-- An environment for a token service that answers every request with the
status `httpCode` and the text `response`, or refuses the connection when
`up` is false; its parser knows three documents. -/
def answering (up : Bool) (httpCode : Int) (response : String) : Environment where
  OCS_HOST := "dat-b.osisoft.com:443"
  URL_RETRIEVE_TOKEN := "/identity/connect/token"
  PAYLOAD_RETRIEVE_TOKEN := "grant_type=client_credentials"
  urlEncode := fun s => s
  StringReplace := fun s _ _ => s
  parse := fun text =>
    if text = "token abc" then some (Json.object [("access_token", Json.string "abc")])
    else if text = "no token" then some (Json.object [("error", Json.string "invalid_client")])
    else none
  sendRequest := fun _ =>
    if up then Except.ok (httpCode, response) else Except.error "Connection refused"

/-- An environment whose parser knows one document, an object whose member
"access_token" is written with the escape for NUL between `a` and `b`, and
holds it as rapidjson does: the value is the three characters a, NUL, b. -/
def escapedNul : Environment :=
  { answering true 200 "" with
    parse := fun text =>
      if text = "\x7b\"access_token\":\"a\\u0000b\"\x7d" then
        some (Json.object [("access_token", Json.string "a\x00b")])
      else none }

end OCS

/-! ## The test card plugin (`tests/system/plugins/south/fledge-south-testcard/plugin.cpp`) -/

namespace Testcard

/-- The value an `int` operation leaves when its exact result is `x`: the
result wraps around into the 32 bits of an `int`. -/
def wrapInt (x : Int) : Int := (x + 2 ^ 31) % 2 ^ 32 - 2 ^ 31

/-- The conversion of an `int` to the 64-bit `size_t` argument of `malloc`. -/
def toSize (x : Int) : Nat := (x % 2 ^ 64).toNat

/-- The bytes the floating point expressions of the 24-bit case come to, per
row: the shade of the four lines and the red and green of the pattern.
Floating point is left out of the embedding. -/
structure Shades where
  line : Nat → Nat
  red : Nat → Nat
  green : Nat → Nat

/-- The nested loops `for (i = 0; i < rows; i++) for (j = 0; j < width; j++)`
with a body that writes the bytes `pixel i j` through `ptr++`: the bytes
written, in order. -/
def fill (rows width : Int) (pixel : Nat → Nat → List Nat) : List Nat :=
  (List.range rows.toNat).flatMap (fun i => (List.range width.toNat).flatMap (fun j => pixel i j))

/-- The size `malloc` is asked for in the 24-bit case,
`imageHeight * imageWidth * 3` computed in `int`. -/
def allocated24 (imageHeight imageWidth : Int) : Nat :=
  toSize (wrapInt (wrapInt (imageHeight * imageWidth) * 3))

/-- The 24-bit case of `plugin_poll`: the bytes the five loops write from the
start of the buffer on, in order. -/
def written24 (shades : Shades) (imageHeight imageWidth : Int) : List Nat :=
  let rowLimitFirstHalf := imageHeight.tdiv 8
  let rowLimitSecondHalf := imageHeight.tdiv 2
  fill rowLimitFirstHalf imageWidth (fun i _ => [shades.line i, 0, 0]) ++
  fill rowLimitFirstHalf imageWidth (fun i _ => [0, shades.line i, 0]) ++
  fill rowLimitFirstHalf imageWidth (fun i _ => [0, 0, shades.line i]) ++
  fill rowLimitFirstHalf imageWidth
    (fun i _ => [shades.line i, shades.line i, shades.line i]) ++
  fill rowLimitSecondHalf imageWidth (fun i j => [shades.red i, shades.green i, j % 256])

/-- Shades that grow by 8 a row, cut to a byte. -/
def ramp : Shades where
  line := fun i => (i * 8) % 256
  red := fun i => (i * 4) % 256
  green := fun i => (255 - i * 4) % 256

end Testcard

/-! ## Lemmas on the pool and on the shape of a borrowing call -/

/-- Releasing the connection just allocated restores the in-use list of the pool. -/
theorem Pool.inUse_release_allocate (p : Pool) :
    (Pool.release (Pool.allocate p).1 (Pool.allocate p).2).inUse = p.inUse := by
  unfold Pool.allocate
  by_cases hc : p.closed = true
  · simp [hc, Pool.release]
  · cases hi : p.idle with
    | nil => simp [hc, Pool.release]
    | cons c rest => simp [hc, Pool.release]

/-- Every borrowing entry point of the Postgres plugin leaves the world with the
manager released after one allocation, the store its one Connection call
leaves, and the log extended by three calls. -/
theorem Postgres.Request.run_shape {μ σ : Type} (M : ConnectionManager μ)
    (C : Postgres.Connection σ) (S : Nat) (w : World μ σ) (req : Postgres.Request) :
    ∃ op, req.run M C S w =
      { manager := M.release (M.allocate w.manager).1 (M.allocate w.manager).2,
        store := C.storeAfter (M.allocate w.manager).1 op w.store,
        trace := w.trace ++ [Event.allocate (M.allocate w.manager).1,
                             Event.call (M.allocate w.manager).1 op,
                             Event.release (M.allocate w.manager).1] } := by
  cases req with
  | common_retrieve schema table query =>
    refine ⟨Operation.retrieve (schema.getD Postgres.DEFAULT_SCHEMA ++ "." ++ table) query, ?_⟩
    simp only [Postgres.Request.run, Postgres.plugin_common_retrieve, allocate, invoke, release,
      Postgres.Connection.storeAfter]
    split_ifs <;> simp
  | reading_purge param flags sent =>
    by_cases h : flags &&& S = 0
    · refine ⟨Operation.purgeReadings param flags sent, ?_⟩
      simp [Postgres.Request.run, Postgres.plugin_reading_purge, allocate, invoke, release,
        Postgres.Connection.storeAfter, h]
    · refine ⟨Operation.purgeReadingsByRows param flags sent, ?_⟩
      simp [Postgres.Request.run, Postgres.plugin_reading_purge, allocate, invoke, release,
        Postgres.Connection.storeAfter, h]
  | common_insert schema table data =>
    exact ⟨Operation.insert (schema.getD Postgres.DEFAULT_SCHEMA ++ "." ++ table) data, by
      simp [Postgres.Request.run, Postgres.plugin_common_insert, allocate, invoke, release,
        Postgres.Connection.storeAfter]⟩
  | common_update schema table data =>
    exact ⟨Operation.update (schema.getD Postgres.DEFAULT_SCHEMA ++ "." ++ table) data, by
      simp [Postgres.Request.run, Postgres.plugin_common_update, allocate, invoke, release,
        Postgres.Connection.storeAfter]⟩
  | common_delete schema table condition =>
    exact ⟨Operation.deleteRows (schema.getD Postgres.DEFAULT_SCHEMA ++ "." ++ table) condition,
      by simp [Postgres.Request.run, Postgres.plugin_common_delete, allocate, invoke, release,
        Postgres.Connection.storeAfter]⟩
  | reading_append readings =>
    exact ⟨Operation.appendReadings readings, by
      simp [Postgres.Request.run, Postgres.plugin_reading_append, allocate, invoke, release,
        Postgres.Connection.storeAfter]⟩
  | reading_fetch id blksize =>
    exact ⟨Operation.fetchReadings id blksize, by
      simp [Postgres.Request.run, Postgres.plugin_reading_fetch, allocate, invoke, release,
        Postgres.Connection.storeAfter]⟩
  | reading_retrieve condition =>
    exact ⟨Operation.retrieveReadings condition, by
      simp [Postgres.Request.run, Postgres.plugin_reading_retrieve, allocate, invoke, release,
        Postgres.Connection.storeAfter]⟩
  | create_table_snapshot table id =>
    exact ⟨Operation.create_table_snapshot table id, by
      simp [Postgres.Request.run, Postgres.plugin_create_table_snapshot, allocate, invoke,
        release, Postgres.Connection.storeAfter]⟩
  | load_table_snapshot table id =>
    exact ⟨Operation.load_table_snapshot table id, by
      simp [Postgres.Request.run, Postgres.plugin_load_table_snapshot, allocate, invoke,
        release, Postgres.Connection.storeAfter]⟩
  | delete_table_snapshot table id =>
    exact ⟨Operation.delete_table_snapshot table id, by
      simp [Postgres.Request.run, Postgres.plugin_delete_table_snapshot, allocate, invoke,
        release, Postgres.Connection.storeAfter]⟩
  | get_table_snapshots table =>
    exact ⟨Operation.get_table_snapshots table, by
      simp [Postgres.Request.run, Postgres.plugin_get_table_snapshots, allocate, invoke,
        release, Postgres.Connection.storeAfter]⟩
  | createSchema payload =>
    exact ⟨Operation.create_schema payload, by
      simp [Postgres.Request.run, Postgres.plugin_createSchema, allocate, invoke, release,
        Postgres.Connection.storeAfter]⟩
  | schema_update schema payload =>
    exact ⟨Operation.create_schema payload, by
      simp [Postgres.Request.run, Postgres.plugin_schema_update, allocate, invoke, release,
        Postgres.Connection.storeAfter]⟩

/-! ## The borrowing discipline -/

/-- C1: every borrowing entry point of the Postgres plugin, on every input and
with every manager, extends the call log by exactly one allocate(), one
Connection operation on the connection allocate() returned and one release() of
that connection, in this order; the store it leaves is the store that one
operation leaves when run once on the store the call started from, and the
manager is as release() after allocate() leaves it; on the pool the in-use
connections after the call are the ones before it, so their number is
unchanged. -/
theorem Postgres.borrow_call_release {σ : Type} (C : Postgres.Connection σ)
    (STORAGE_PURGE_SIZE : Nat) (req : Postgres.Request) :
    (∀ (μ : Type) (M : ConnectionManager μ) (w : World μ σ),
      ∃ op, (req.run M C STORAGE_PURGE_SIZE w).trace =
          w.trace ++ [Event.allocate (M.allocate w.manager).1,
                      Event.call (M.allocate w.manager).1 op,
                      Event.release (M.allocate w.manager).1] ∧
        (req.run M C STORAGE_PURGE_SIZE w).store =
          C.storeAfter (M.allocate w.manager).1 op w.store ∧
        (req.run M C STORAGE_PURGE_SIZE w).manager =
          M.release (M.allocate w.manager).1 (M.allocate w.manager).2) ∧
    (∀ w : World Pool σ,
      Pool.manager.inUse (req.run Pool.manager C STORAGE_PURGE_SIZE w).manager =
        Pool.manager.inUse w.manager ∧
      (Pool.manager.inUse (req.run Pool.manager C STORAGE_PURGE_SIZE w).manager).length =
        (Pool.manager.inUse w.manager).length) := by
  refine ⟨fun μ M w => ?_, fun w => ?_⟩
  · obtain ⟨op, h⟩ := Postgres.Request.run_shape M C STORAGE_PURGE_SIZE w req
    exact ⟨op, by rw [h], by rw [h], by rw [h]⟩
  · obtain ⟨op, h⟩ := Postgres.Request.run_shape Pool.manager C STORAGE_PURGE_SIZE w req
    have hin : Pool.manager.inUse (req.run Pool.manager C STORAGE_PURGE_SIZE w).manager =
        Pool.manager.inUse w.manager := by
      rw [h]
      exact Pool.inUse_release_allocate w.manager
    exact ⟨hin, by rw [hin]⟩

/-- C2: the sqlitememory `plugin_reading_purge` called with flags = 0x0002 on
a pool of five idle connections throws with connection 0 still in use: the log
holds the allocate() and no release(), and the pool has one connection in use
where it had none.  With flags = 0 on the same world the connection is back in
the idle set when the call returns. -/
theorem SqliteMemory.purge_by_size_keeps_connection :
    SqliteMemory.plugin_reading_purge Pool.manager SqliteMemory.counting 0 0x0002 0
        SqliteMemory.world0 =
      (.raised (.PluginNotImplementedException
          "Purge by size is not supported by \x27SQLite\x27 storage engine."),
       { manager := { idle := [1, 2, 3, 4], inUse := [0], sessions := 5, closed := false },
         store := 0,
         trace := [Event.growPool 5, Event.allocate (some 0)] }) ∧
    SqliteMemory.world0.manager.inUse = [] ∧
    SqliteMemory.plugin_reading_purge Pool.manager SqliteMemory.counting 0 0 0
        SqliteMemory.world0 =
      (.returned (some "removed: 0"),
       { manager := { idle := [1, 2, 3, 4, 0], inUse := [], sessions := 5, closed := false },
         store := 0,
         trace := [Event.growPool 5, Event.allocate (some 0),
                   Event.call (some 0) (Operation.purgeReadings 0 0 0),
                   Event.release (some 0)] }) :=
  ⟨rfl, rfl, rfl⟩

/-- C3: the sqlitememory `plugin_reading_purge` throws
PluginNotImplementedException exactly when flags has bit 0x0002 set; then the
log gains the allocate() only and the store is untouched, so purgeReadings is
not invoked; otherwise the log gains allocate(), purgeReadings(param, flags,
sent) once and release(), the store is the one purgeReadings leaves, and the
value returned is the result string purgeReadings produced. -/
theorem SqliteMemory.plugin_reading_purge_by_flags {μ σ : Type} (M : ConnectionManager μ)
    (C : SqliteMemory.Connection σ) (param flags sent : Nat) (w : World μ σ) :
    ((∃ message, (SqliteMemory.plugin_reading_purge M C param flags sent w).1 =
        .raised (.PluginNotImplementedException message)) ↔ flags &&& 0x0002 ≠ 0) ∧
    (flags &&& 0x0002 ≠ 0 →
      (SqliteMemory.plugin_reading_purge M C param flags sent w).2.trace =
        w.trace ++ [Event.allocate (M.allocate w.manager).1] ∧
      (SqliteMemory.plugin_reading_purge M C param flags sent w).2.store = w.store) ∧
    (flags &&& 0x0002 = 0 →
      (SqliteMemory.plugin_reading_purge M C param flags sent w).2.trace =
        w.trace ++ [Event.allocate (M.allocate w.manager).1,
                    Event.call (M.allocate w.manager).1 (Operation.purgeReadings param flags sent),
                    Event.release (M.allocate w.manager).1] ∧
      (SqliteMemory.plugin_reading_purge M C param flags sent w).2.store =
        (C.purgeReadings (M.allocate w.manager).1 param flags sent w.store).2 ∧
      (SqliteMemory.plugin_reading_purge M C param flags sent w).1 =
        .returned (some
          (C.purgeReadings (M.allocate w.manager).1 param flags sent w.store).1.2)) := by
  by_cases h : flags &&& 0x0002 = 0
  · simp [SqliteMemory.plugin_reading_purge, allocate, invoke, release, h]
  · simp [SqliteMemory.plugin_reading_purge, allocate, invoke, release, h]

/-- C4: the Postgres `plugin_reading_purge` makes exactly one Connection call
between allocate() and release(): purgeReadingsByRows(param, flags, sent) when
flags has a bit of STORAGE_PURGE_SIZE set, purgeReadings(param, flags, sent)
otherwise, with param, flags and sent as received; the store is the one that
call leaves and the value returned is the result string that call produced. -/
theorem Postgres.plugin_reading_purge_strategy {μ σ : Type} (M : ConnectionManager μ)
    (C : Postgres.Connection σ) (STORAGE_PURGE_SIZE param flags sent : Nat) (w : World μ σ) :
    (Postgres.plugin_reading_purge M C STORAGE_PURGE_SIZE param flags sent w).2.trace =
      w.trace ++ [Event.allocate (M.allocate w.manager).1,
        Event.call (M.allocate w.manager).1
          (if flags &&& STORAGE_PURGE_SIZE ≠ 0 then Operation.purgeReadingsByRows param flags sent
           else Operation.purgeReadings param flags sent),
        Event.release (M.allocate w.manager).1] ∧
    (Postgres.plugin_reading_purge M C STORAGE_PURGE_SIZE param flags sent w).2.store =
      (if flags &&& STORAGE_PURGE_SIZE ≠ 0 then
        (C.purgeReadingsByRows (M.allocate w.manager).1 param flags sent w.store).2
       else (C.purgeReadings (M.allocate w.manager).1 param flags sent w.store).2) ∧
    (Postgres.plugin_reading_purge M C STORAGE_PURGE_SIZE param flags sent w).1 =
      some (if flags &&& STORAGE_PURGE_SIZE ≠ 0 then
        (C.purgeReadingsByRows (M.allocate w.manager).1 param flags sent w.store).1.2
       else (C.purgeReadings (M.allocate w.manager).1 param flags sent w.store).1.2) := by
  by_cases h : flags &&& STORAGE_PURGE_SIZE = 0
  · simp [Postgres.plugin_reading_purge, allocate, invoke, release, h]
  · simp [Postgres.plugin_reading_purge, allocate, invoke, release, h]

/-! ## Arguments and results of the entry points -/

/-- The literal "fledge." is DEFAULT_SCHEMA followed by a dot. -/
theorem Postgres.default_schema_dot (table : String) :
    Postgres.DEFAULT_SCHEMA ++ "." ++ table = "fledge." ++ table := by
  rw [show "fledge." = Postgres.DEFAULT_SCHEMA ++ "." from by decide]

/-- C5: `plugin_common_insert`, `plugin_common_retrieve`, `plugin_common_update`
and `plugin_common_delete` call their Connection operation with the table name
schema + "." + table when a schema is given and "fledge." + table when it is
null, and with the payload as received: the call is logged with these
arguments and the store is the one the operation leaves when run on them. -/
theorem Postgres.plugin_common_table_name {μ σ : Type} (M : ConnectionManager μ)
    (C : Postgres.Connection σ) (schema : Option String) (table payload : String)
    (w : World μ σ) :
    ((Postgres.plugin_common_insert M C schema table payload w).2.trace =
        w.trace ++ [Event.allocate (M.allocate w.manager).1,
          Event.call (M.allocate w.manager).1
            (Operation.insert
              (match schema with
               | some s => s ++ "." ++ table
               | none => "fledge." ++ table) payload),
          Event.release (M.allocate w.manager).1] ∧
      (Postgres.plugin_common_insert M C schema table payload w).2.store =
        (C.insert (M.allocate w.manager).1
          (match schema with
           | some s => s ++ "." ++ table
           | none => "fledge." ++ table) payload w.store).2) ∧
    ((Postgres.plugin_common_retrieve M C schema table payload w).2.trace =
        w.trace ++ [Event.allocate (M.allocate w.manager).1,
          Event.call (M.allocate w.manager).1
            (Operation.retrieve
              (match schema with
               | some s => s ++ "." ++ table
               | none => "fledge." ++ table) payload),
          Event.release (M.allocate w.manager).1] ∧
      (Postgres.plugin_common_retrieve M C schema table payload w).2.store =
        (C.retrieve (M.allocate w.manager).1
          (match schema with
           | some s => s ++ "." ++ table
           | none => "fledge." ++ table) payload w.store).2) ∧
    ((Postgres.plugin_common_update M C schema table payload w).2.trace =
        w.trace ++ [Event.allocate (M.allocate w.manager).1,
          Event.call (M.allocate w.manager).1
            (Operation.update
              (match schema with
               | some s => s ++ "." ++ table
               | none => "fledge." ++ table) payload),
          Event.release (M.allocate w.manager).1] ∧
      (Postgres.plugin_common_update M C schema table payload w).2.store =
        (C.update (M.allocate w.manager).1
          (match schema with
           | some s => s ++ "." ++ table
           | none => "fledge." ++ table) payload w.store).2) ∧
    ((Postgres.plugin_common_delete M C schema table payload w).2.trace =
        w.trace ++ [Event.allocate (M.allocate w.manager).1,
          Event.call (M.allocate w.manager).1
            (Operation.deleteRows
              (match schema with
               | some s => s ++ "." ++ table
               | none => "fledge." ++ table) payload),
          Event.release (M.allocate w.manager).1] ∧
      (Postgres.plugin_common_delete M C schema table payload w).2.store =
        (C.deleteRows (M.allocate w.manager).1
          (match schema with
           | some s => s ++ "." ++ table
           | none => "fledge." ++ table) payload w.store).2) := by
  cases schema with
  | none =>
    simp only [Postgres.plugin_common_insert, Postgres.plugin_common_retrieve,
      Postgres.plugin_common_update, Postgres.plugin_common_delete, allocate, invoke, release,
      Option.getD_none, Postgres.default_schema_dot]
    refine ⟨?_, ?_, ?_, ?_⟩ <;> first | (split_ifs <;> simp) | simp
  | some s =>
    simp only [Postgres.plugin_common_insert, Postgres.plugin_common_retrieve,
      Postgres.plugin_common_update, Postgres.plugin_common_delete, allocate, invoke, release,
      Option.getD_some]
    refine ⟨?_, ?_, ?_, ?_⟩ <;> first | (split_ifs <;> simp) | simp

/-- C6: `plugin_common_retrieve` and `plugin_get_table_snapshots` return NULL (`none`)
exactly when their Connection operation (retrieve, get_table_snapshots) returns
false, and when it returns true they return the result string it produced,
the empty one included. -/
theorem Postgres.retrieve_null_iff_false {μ σ : Type} (M : ConnectionManager μ)
    (C : Postgres.Connection σ) (schema : Option String) (table query : String)
    (w : World μ σ) :
    (((Postgres.plugin_common_retrieve M C schema table query w).1 = none ↔
        (C.retrieve (M.allocate w.manager).1 (schema.getD Postgres.DEFAULT_SCHEMA ++ "." ++ table)
          query w.store).1.1 = false) ∧
      ((C.retrieve (M.allocate w.manager).1 (schema.getD Postgres.DEFAULT_SCHEMA ++ "." ++ table)
          query w.store).1.1 = true →
        (Postgres.plugin_common_retrieve M C schema table query w).1 =
          some (C.retrieve (M.allocate w.manager).1
            (schema.getD Postgres.DEFAULT_SCHEMA ++ "." ++ table) query w.store).1.2)) ∧
    (((Postgres.plugin_get_table_snapshots M C table w).1 = none ↔
        (C.get_table_snapshots (M.allocate w.manager).1 table w.store).1.1 = false) ∧
      ((C.get_table_snapshots (M.allocate w.manager).1 table w.store).1.1 = true →
        (Postgres.plugin_get_table_snapshots M C table w).1 =
          some (C.get_table_snapshots (M.allocate w.manager).1 table w.store).1.2)) := by
  simp only [Postgres.plugin_common_retrieve, Postgres.plugin_get_table_snapshots,
    allocate, invoke, release]
  refine ⟨⟨?_, ?_⟩, ⟨?_, ?_⟩⟩
  · split_ifs with h <;> simp [h]
  · intro h; simp [h]
  · split_ifs with h <;> simp [h]
  · intro h; simp [h]

/-- C7, as stated, fails: with the store down, fetchReadings, retrieveReadings,
purgeReadings and purgeReadingsByRows all report failure (false), and
`plugin_reading_fetch`, `plugin_reading_retrieve` and `plugin_reading_purge`
(by age, flags = 0, and by rows, flags = 2 with STORAGE_PURGE_SIZE = 2) still
return a string, the empty one, and not NULL. -/
theorem Postgres.reading_failure_not_null :
    (Postgres.failing.fetchReadings (some 0) 1 100 ()).1.1 = false ∧
    (Postgres.plugin_reading_fetch Pool.manager Postgres.failing 1 100 Postgres.world0).1 =
      some "" ∧
    (Postgres.failing.retrieveReadings (some 0) "" ()).1.1 = false ∧
    (Postgres.plugin_reading_retrieve Pool.manager Postgres.failing "" Postgres.world0).1 =
      some "" ∧
    (Postgres.failing.purgeReadings (some 0) 24 0 0 ()).1.1 = false ∧
    (Postgres.plugin_reading_purge Pool.manager Postgres.failing 2 24 0 0 Postgres.world0).1 =
      some "" ∧
    (Postgres.failing.purgeReadingsByRows (some 0) 24 2 0 ()).1.1 = false ∧
    (Postgres.plugin_reading_purge Pool.manager Postgres.failing 2 24 2 0 Postgres.world0).1 =
      some "" ∧
    (some "" : Option String) ≠ none :=
  ⟨rfl, rfl, rfl, rfl, rfl, rfl, rfl, rfl, by decide⟩

/-- C7, amended: `plugin_reading_fetch`, `plugin_reading_retrieve` and
`plugin_reading_purge` of the Postgres plugin never return NULL: whatever the
Connection operation reports (true or false), the value returned is the result
string as that operation left it. -/
theorem Postgres.reading_returns_result_string {μ σ : Type} (M : ConnectionManager μ)
    (C : Postgres.Connection σ) (STORAGE_PURGE_SIZE id blksize param flags sent : Nat)
    (condition : String) (w : World μ σ) :
    (Postgres.plugin_reading_fetch M C id blksize w).1 =
      some (C.fetchReadings (M.allocate w.manager).1 id blksize w.store).1.2 ∧
    (Postgres.plugin_reading_retrieve M C condition w).1 =
      some (C.retrieveReadings (M.allocate w.manager).1 condition w.store).1.2 ∧
    (Postgres.plugin_reading_purge M C STORAGE_PURGE_SIZE param flags sent w).1 =
      some (if flags &&& STORAGE_PURGE_SIZE ≠ 0 then
        (C.purgeReadingsByRows (M.allocate w.manager).1 param flags sent w.store).1.2
       else (C.purgeReadings (M.allocate w.manager).1 param flags sent w.store).1.2) ∧
    (Postgres.plugin_reading_fetch M C id blksize w).1 ≠ none ∧
    (Postgres.plugin_reading_retrieve M C condition w).1 ≠ none ∧
    (Postgres.plugin_reading_purge M C STORAGE_PURGE_SIZE param flags sent w).1 ≠ none := by
  by_cases h : flags &&& STORAGE_PURGE_SIZE = 0 <;>
    simp [Postgres.plugin_reading_fetch, Postgres.plugin_reading_retrieve,
      Postgres.plugin_reading_purge, allocate, invoke, release, h]

/-- C8: each integer-returning entry point of the Postgres plugin returns the
integer its one Connection operation returned; so it returns -1 exactly when
the operation did, and a value >= 0 exactly when the operation did. -/
theorem Postgres.int_result_is_operation_result {μ σ : Type} (M : ConnectionManager μ)
    (C : Postgres.Connection σ) (schema : Option String) (table data id readings payload : String)
    (w : World μ σ) :
    (((Postgres.plugin_common_insert M C schema table data w).1 =
        (C.insert (M.allocate w.manager).1
          (schema.getD Postgres.DEFAULT_SCHEMA ++ "." ++ table) data w.store).1) ∧
      ((Postgres.plugin_common_insert M C schema table data w).1 = -1 ↔
        (C.insert (M.allocate w.manager).1
          (schema.getD Postgres.DEFAULT_SCHEMA ++ "." ++ table) data w.store).1 = -1) ∧
      (0 ≤ (Postgres.plugin_common_insert M C schema table data w).1 ↔
        0 ≤ (C.insert (M.allocate w.manager).1
          (schema.getD Postgres.DEFAULT_SCHEMA ++ "." ++ table) data w.store).1)) ∧
    (((Postgres.plugin_common_update M C schema table data w).1 =
        (C.update (M.allocate w.manager).1
          (schema.getD Postgres.DEFAULT_SCHEMA ++ "." ++ table) data w.store).1) ∧
      ((Postgres.plugin_common_update M C schema table data w).1 = -1 ↔
        (C.update (M.allocate w.manager).1
          (schema.getD Postgres.DEFAULT_SCHEMA ++ "." ++ table) data w.store).1 = -1) ∧
      (0 ≤ (Postgres.plugin_common_update M C schema table data w).1 ↔
        0 ≤ (C.update (M.allocate w.manager).1
          (schema.getD Postgres.DEFAULT_SCHEMA ++ "." ++ table) data w.store).1)) ∧
    (((Postgres.plugin_common_delete M C schema table data w).1 =
        (C.deleteRows (M.allocate w.manager).1
          (schema.getD Postgres.DEFAULT_SCHEMA ++ "." ++ table) data w.store).1) ∧
      ((Postgres.plugin_common_delete M C schema table data w).1 = -1 ↔
        (C.deleteRows (M.allocate w.manager).1
          (schema.getD Postgres.DEFAULT_SCHEMA ++ "." ++ table) data w.store).1 = -1) ∧
      (0 ≤ (Postgres.plugin_common_delete M C schema table data w).1 ↔
        0 ≤ (C.deleteRows (M.allocate w.manager).1
          (schema.getD Postgres.DEFAULT_SCHEMA ++ "." ++ table) data w.store).1)) ∧
    (((Postgres.plugin_reading_append M C readings w).1 =
        (C.appendReadings (M.allocate w.manager).1 readings w.store).1) ∧
      ((Postgres.plugin_reading_append M C readings w).1 = -1 ↔
        (C.appendReadings (M.allocate w.manager).1 readings w.store).1 = -1) ∧
      (0 ≤ (Postgres.plugin_reading_append M C readings w).1 ↔
        0 ≤ (C.appendReadings (M.allocate w.manager).1 readings w.store).1)) ∧
    (((Postgres.plugin_create_table_snapshot M C table id w).1 =
        (C.create_table_snapshot (M.allocate w.manager).1 table id w.store).1) ∧
      ((Postgres.plugin_create_table_snapshot M C table id w).1 = -1 ↔
        (C.create_table_snapshot (M.allocate w.manager).1 table id w.store).1 = -1) ∧
      (0 ≤ (Postgres.plugin_create_table_snapshot M C table id w).1 ↔
        0 ≤ (C.create_table_snapshot (M.allocate w.manager).1 table id w.store).1)) ∧
    (((Postgres.plugin_load_table_snapshot M C table id w).1 =
        (C.load_table_snapshot (M.allocate w.manager).1 table id w.store).1) ∧
      ((Postgres.plugin_load_table_snapshot M C table id w).1 = -1 ↔
        (C.load_table_snapshot (M.allocate w.manager).1 table id w.store).1 = -1) ∧
      (0 ≤ (Postgres.plugin_load_table_snapshot M C table id w).1 ↔
        0 ≤ (C.load_table_snapshot (M.allocate w.manager).1 table id w.store).1)) ∧
    (((Postgres.plugin_delete_table_snapshot M C table id w).1 =
        (C.delete_table_snapshot (M.allocate w.manager).1 table id w.store).1) ∧
      ((Postgres.plugin_delete_table_snapshot M C table id w).1 = -1 ↔
        (C.delete_table_snapshot (M.allocate w.manager).1 table id w.store).1 = -1) ∧
      (0 ≤ (Postgres.plugin_delete_table_snapshot M C table id w).1 ↔
        0 ≤ (C.delete_table_snapshot (M.allocate w.manager).1 table id w.store).1)) ∧
    (((Postgres.plugin_createSchema M C payload w).1 =
        (C.create_schema (M.allocate w.manager).1 payload w.store).1) ∧
      ((Postgres.plugin_createSchema M C payload w).1 = -1 ↔
        (C.create_schema (M.allocate w.manager).1 payload w.store).1 = -1) ∧
      (0 ≤ (Postgres.plugin_createSchema M C payload w).1 ↔
        0 ≤ (C.create_schema (M.allocate w.manager).1 payload w.store).1)) := by
  simp [Postgres.plugin_common_insert, Postgres.plugin_common_update,
    Postgres.plugin_common_delete, Postgres.plugin_reading_append,
    Postgres.plugin_create_table_snapshot, Postgres.plugin_load_table_snapshot,
    Postgres.plugin_delete_table_snapshot, Postgres.plugin_createSchema,
    allocate, invoke, release]

/-- C9: `plugin_schema_update` does what `plugin_createSchema` does, for every
schema argument, null or not: same value returned, same world left behind,
and the log gains allocate(), create_schema(payload) once and release(). -/
theorem Postgres.schema_update_is_createSchema {μ σ : Type} (M : ConnectionManager μ)
    (C : Postgres.Connection σ) (schema : Option String) (payload : String) (w : World μ σ) :
    Postgres.plugin_schema_update M C schema payload w =
      Postgres.plugin_createSchema M C payload w ∧
    (Postgres.plugin_schema_update M C schema payload w).1 =
      (C.create_schema (M.allocate w.manager).1 payload w.store).1 ∧
    (Postgres.plugin_schema_update M C schema payload w).2.trace =
      w.trace ++ [Event.allocate (M.allocate w.manager).1,
        Event.call (M.allocate w.manager).1 (Operation.create_schema payload),
        Event.release (M.allocate w.manager).1] ∧
    (Postgres.plugin_createSchema M C payload w).2.trace =
      w.trace ++ [Event.allocate (M.allocate w.manager).1,
        Event.call (M.allocate w.manager).1 (Operation.create_schema payload),
        Event.release (M.allocate w.manager).1] := by
  simp [Postgres.plugin_schema_update, Postgres.plugin_createSchema, allocate, invoke, release]

/-- C10, as stated, fails: it is not so that for every configured pool size
`plugin_init` grows the pool by that size, neither in the Postgres plugin nor
in the sqlitememory plugin; with poolSize configured as 10 the pool is grown
by 5. -/
theorem plugin_init_ignores_pool_size :
    (¬ ∀ poolSize : Nat,
      (Postgres.plugin_init Pool.manager
        ({ manager := Pool.empty, store := (), trace := [] } : World Pool Unit)).2.trace =
        [Event.growPool poolSize]) ∧
    (¬ ∀ poolSize : Nat,
      (SqliteMemory.plugin_init Pool.manager
        ({ manager := Pool.empty, store := 0, trace := [] } : World Pool Nat)).2.trace =
        [Event.growPool poolSize]) ∧
    (Postgres.plugin_init Pool.manager
        ({ manager := Pool.empty, store := (), trace := [] } : World Pool Unit)).2.trace ≠
      [Event.growPool 10] := by
  refine ⟨fun h => ?_, fun h => ?_, by decide⟩
  · exact absurd (h 10) (by decide)
  · exact absurd (h 10) (by decide)

/-- C10, amended: `plugin_init` of either plugin grows the pool exactly once,
by the constant 5 whatever the configuration, and returns the manager so grown
as the handle; 5 is the default of the item poolSize in the Postgres
`default_config`; `plugin_shutdown` calls shutdown() exactly once and returns
true. -/
theorem plugin_init_grows_by_five {μ σ : Type} (M : ConnectionManager μ) (w : World μ σ) :
    ((Postgres.plugin_init M w).2.trace = w.trace ++ [Event.growPool 5] ∧
      (Postgres.plugin_init M w).1 = M.growPool 5 w.manager ∧
      (Postgres.plugin_init M w).2.manager = (Postgres.plugin_init M w).1) ∧
    ((SqliteMemory.plugin_init M w).2.trace = w.trace ++ [Event.growPool 5] ∧
      (SqliteMemory.plugin_init M w).1 = M.growPool 5 w.manager ∧
      (SqliteMemory.plugin_init M w).2.manager = (SqliteMemory.plugin_init M w).1) ∧
    (Postgres.default_config.lookup "poolSize").bind (fun item => item.lookup "default") =
      some (toString (5 : Nat)) ∧
    ((Postgres.plugin_shutdown M w).1 = true ∧
      (Postgres.plugin_shutdown M w).2.trace = w.trace ++ [Event.shutdown] ∧
      (Postgres.plugin_shutdown M w).2.manager = M.shutdown w.manager) ∧
    ((SqliteMemory.plugin_shutdown M w).1 = true ∧
      (SqliteMemory.plugin_shutdown M w).2.trace = w.trace ++ [Event.shutdown] ∧
      (SqliteMemory.plugin_shutdown M w).2.manager = M.shutdown w.manager) := by
  refine ⟨⟨rfl, rfl, rfl⟩, ⟨rfl, rfl, rfl⟩, by decide, ⟨rfl, rfl, rfl⟩, ⟨rfl, rfl, rfl⟩⟩

/-- The sqlitememory purge at two concrete flag values: flags = 2 has the bit
set and the log gains the allocate() only; flags = 1 has it clear and the
result string of purgeReadings is returned. -/
theorem SqliteMemory.plugin_reading_purge_by_flags_witness :
    (2 &&& 0x0002 ≠ 0) ∧
    (SqliteMemory.plugin_reading_purge Pool.manager SqliteMemory.counting 7 2 0
        SqliteMemory.world0).2.trace =
      [Event.growPool 5, Event.allocate (some 0)] ∧
    (1 &&& 0x0002 = 0) ∧
    (SqliteMemory.plugin_reading_purge Pool.manager SqliteMemory.counting 7 1 0
        SqliteMemory.world0).1 = .returned (some "removed: 0") :=
  ⟨by decide,
   ((SqliteMemory.plugin_reading_purge_by_flags Pool.manager SqliteMemory.counting 7 2 0
      SqliteMemory.world0).2.1 (by decide)).1,
   by decide,
   ((SqliteMemory.plugin_reading_purge_by_flags Pool.manager SqliteMemory.counting 7 1 0
      SqliteMemory.world0).2.2 (by decide)).2.2⟩

/-- The Postgres retrieve calls with the store down: the operations return
false and the entry points return NULL. -/
theorem Postgres.retrieve_null_iff_false_witness :
    (Postgres.failing.retrieve (some 0) "fledge.configuration" "" ()).1.1 = false ∧
    (Postgres.plugin_common_retrieve Pool.manager Postgres.failing none "configuration" ""
        Postgres.world0).1 = none ∧
    (Postgres.failing.get_table_snapshots (some 0) "configuration" ()).1.1 = false ∧
    (Postgres.plugin_get_table_snapshots Pool.manager Postgres.failing "configuration"
        Postgres.world0).1 = none :=
  ⟨rfl,
   (Postgres.retrieve_null_iff_false Pool.manager Postgres.failing none "configuration" ""
      Postgres.world0).1.1.2 rfl,
   rfl,
   (Postgres.retrieve_null_iff_false Pool.manager Postgres.failing none "configuration" ""
      Postgres.world0).2.1.2 rfl⟩

/-! ## The storage asset tracking cache -/

/-- The key equality `sameNames` is symmetric. -/
theorem StorageAssetTracker.sameNames_symm (a b : StorageAssetTrackingTuple) :
    StorageAssetTracker.sameNames a b = StorageAssetTracker.sameNames b a := by
  rw [Bool.eq_iff_iff]
  simp only [StorageAssetTracker.sameNames, Bool.and_eq_true, beq_iff_eq]
  constructor <;> rintro ⟨⟨⟨⟨h1, h2⟩, h3⟩, h4⟩, h5⟩ <;>
    exact ⟨⟨⟨⟨h1.symm, h2.symm⟩, h3.symm⟩, h4.symm⟩, h5.symm⟩

/-- The key equality `sameNames` is transitive. -/
theorem StorageAssetTracker.sameNames_trans (a b c : StorageAssetTrackingTuple)
    (hab : StorageAssetTracker.sameNames a b = true)
    (hbc : StorageAssetTracker.sameNames b c = true) :
    StorageAssetTracker.sameNames a c = true := by
  simp only [StorageAssetTracker.sameNames, Bool.and_eq_true, beq_iff_eq] at hab hbc ⊢
  obtain ⟨⟨⟨⟨h1, h2⟩, h3⟩, h4⟩, h5⟩ := hab
  obtain ⟨⟨⟨⟨k1, k2⟩, k3⟩, k4⟩, k5⟩ := hbc
  exact ⟨⟨⟨⟨h1.trans k1, h2.trans k2⟩, h3.trans k3⟩, h4.trans k4⟩, h5.trans k5⟩

/-- In a cache without two equal entries, `find` returns every entry that is
equal to the key. -/
theorem StorageAssetTracker.find_eq_of_mem (keyEq : StorageAssetTracker.KeyEqual)
    (hsymm : ∀ a b, keyEq a b = keyEq b a)
    (htrans : ∀ a b c, keyEq a b = true → keyEq b c = true → keyEq a c = true)
    (cache : List StorageAssetTrackingTuple)
    (hset : cache.Pairwise (fun a b => keyEq a b = false))
    (key entry : StorageAssetTrackingTuple) (hmem : entry ∈ cache)
    (heq : keyEq key entry = true) :
    StorageAssetTracker.find keyEq cache key = some entry := by
  unfold StorageAssetTracker.find
  cases hf : cache.find? (fun e => keyEq key e) with
  | none =>
    have := (List.find?_eq_none.mp hf) entry hmem
    simp [heq] at this
  | some found =>
    have hfm : found ∈ cache := List.mem_of_find?_eq_some hf
    have hfe : keyEq key found = true := List.find?_some hf
    by_cases hne : found = entry
    · rw [hne]
    · exfalso
      have hsym : Symmetric (fun a b : StorageAssetTrackingTuple => keyEq a b = false) := by
        intro a b h
        show keyEq b a = false
        rw [hsymm b a]; exact h
      have hfalse : keyEq found entry = false := hset.forall hsym hfm hmem hne
      have htrue : keyEq found entry = true :=
        htrans found key entry (by rw [hsymm found key]; exact hfe) heq
      rw [hfalse] at htrue
      exact Bool.noConfusion htrue

/-- The call `insert` keeps a cache without two equal entries so. -/
theorem StorageAssetTracker.insert_pairwise (keyEq : StorageAssetTracker.KeyEqual)
    (cache : List StorageAssetTrackingTuple)
    (hset : cache.Pairwise (fun a b => keyEq a b = false))
    (value : StorageAssetTrackingTuple) :
    (StorageAssetTracker.insert keyEq cache value).Pairwise (fun a b => keyEq a b = false) := by
  unfold StorageAssetTracker.insert
  cases hf : StorageAssetTracker.find keyEq cache value with
  | some found => exact hset
  | none =>
    refine List.Pairwise.cons ?_ hset
    intro entry hmem
    have := (List.find?_eq_none.mp hf) entry hmem
    simpa using this

/-- The cache `addStorageAssetTrackingTuple(tuple)` leaves when the tuple is
absent and the management client reports success. -/
theorem StorageAssetTracker.cache_after_successful_add {δ : Type}
    (keyEq : StorageAssetTracker.KeyEqual) (client : ManagementClient δ)
    (self : StorageAssetTracker δ) (tuple : StorageAssetTrackingTuple)
    (habsent : StorageAssetTracker.find keyEq self.storageAssetTrackerTuplesCache tuple = none)
    (hok : (client.addAssetTrackingTuple tuple.m_serviceName tuple.m_pluginName
      tuple.m_assetName tuple.m_eventName tuple.m_datapoints tuple.m_maxCount self.mgt).1 = true) :
    (StorageAssetTracker.addStorageAssetTrackingTuple keyEq client self
        tuple).storageAssetTrackerTuplesCache =
      tuple :: self.storageAssetTrackerTuplesCache := by
  simp [StorageAssetTracker.addStorageAssetTrackingTuple, habsent, hok,
    StorageAssetTracker.insert]

/-- C11: `addStorageAssetTrackingTuple(tuple)` leaves the cache as it is,
except when `find` reports the tuple absent and
`ManagementClient::addAssetTrackingTuple` returns true: then the cache is the
old cache plus one copy of the tuple.  The management client is called, once
and with the fields of the tuple, exactly when the tuple is absent; otherwise
neither the call log nor the management service changes. -/
theorem StorageAssetTracker.add_inserts_only_on_success {δ : Type}
    (keyEq : StorageAssetTracker.KeyEqual) (client : ManagementClient δ)
    (self : StorageAssetTracker δ) (tuple : StorageAssetTrackingTuple) :
    (StorageAssetTracker.addStorageAssetTrackingTuple keyEq client self
        tuple).storageAssetTrackerTuplesCache =
      (if StorageAssetTracker.find keyEq self.storageAssetTrackerTuplesCache tuple = none ∧
          (client.addAssetTrackingTuple tuple.m_serviceName tuple.m_pluginName tuple.m_assetName
            tuple.m_eventName tuple.m_datapoints tuple.m_maxCount self.mgt).1 = true
       then tuple :: self.storageAssetTrackerTuplesCache
       else self.storageAssetTrackerTuplesCache) ∧
    (StorageAssetTracker.addStorageAssetTrackingTuple keyEq client self tuple).calls =
      (if StorageAssetTracker.find keyEq self.storageAssetTrackerTuplesCache tuple = none
       then self.calls ++ [{ service := tuple.m_serviceName, plugin := tuple.m_pluginName,
                             asset := tuple.m_assetName, event := tuple.m_eventName,
                             datapoints := tuple.m_datapoints, maxCount := tuple.m_maxCount }]
       else self.calls) ∧
    (StorageAssetTracker.addStorageAssetTrackingTuple keyEq client self tuple).mgt =
      (if StorageAssetTracker.find keyEq self.storageAssetTrackerTuplesCache tuple = none
       then (client.addAssetTrackingTuple tuple.m_serviceName tuple.m_pluginName
              tuple.m_assetName tuple.m_eventName tuple.m_datapoints tuple.m_maxCount self.mgt).2
       else self.mgt) := by
  unfold StorageAssetTracker.addStorageAssetTrackingTuple
  cases hf : StorageAssetTracker.find keyEq self.storageAssetTrackerTuplesCache tuple with
  | some found => simp
  | none =>
    by_cases hr : (client.addAssetTrackingTuple tuple.m_serviceName tuple.m_pluginName
        tuple.m_assetName tuple.m_eventName tuple.m_datapoints tuple.m_maxCount self.mgt).1 = true
    · simp [hr, StorageAssetTracker.insert, hf]
    · simp [hr]

/-- C12, as stated, fails: after the tuple for the asset "pump" with maxCount 1
was added to an empty cache (database up), the tuple for the same service and
asset with maxCount 2 is found by `findStorageAssetTrackingCache` and
`checkStorageAssetTrackingCache` returns false for it.  This is so under the
key equality of the spec, which compares service and asset, and under every
key equality that holds between these two tuples. -/
theorem StorageAssetTracker.check_false_though_found :
    (StorageAssetTracker.findStorageAssetTrackingCache StorageAssetTracker.sameServiceAsset
        (StorageAssetTracker.addStorageAssetTrackingTuple StorageAssetTracker.sameServiceAsset
          StorageAssetTracker.accepting (StorageAssetTracker.constructed (utf8 "sqlite") 0)
          (StorageAssetTracker.pump 1))
        (StorageAssetTracker.pump 2) = some (StorageAssetTracker.pump 1) ∧
      StorageAssetTracker.checkStorageAssetTrackingCache StorageAssetTracker.sameServiceAsset
        (StorageAssetTracker.addStorageAssetTrackingTuple StorageAssetTracker.sameServiceAsset
          StorageAssetTracker.accepting (StorageAssetTracker.constructed (utf8 "sqlite") 0)
          (StorageAssetTracker.pump 1))
        (StorageAssetTracker.pump 2) = false) ∧
    (∀ keyEq : StorageAssetTracker.KeyEqual,
      keyEq (StorageAssetTracker.pump 2) (StorageAssetTracker.pump 1) = true →
      StorageAssetTracker.findStorageAssetTrackingCache keyEq
        (StorageAssetTracker.addStorageAssetTrackingTuple keyEq
          StorageAssetTracker.accepting (StorageAssetTracker.constructed (utf8 "sqlite") 0)
          (StorageAssetTracker.pump 1))
        (StorageAssetTracker.pump 2) = some (StorageAssetTracker.pump 1) ∧
      StorageAssetTracker.checkStorageAssetTrackingCache keyEq
        (StorageAssetTracker.addStorageAssetTrackingTuple keyEq
          StorageAssetTracker.accepting (StorageAssetTracker.constructed (utf8 "sqlite") 0)
          (StorageAssetTracker.pump 1))
        (StorageAssetTracker.pump 2) = false) := by
  have hcache : ∀ keyEq : StorageAssetTracker.KeyEqual,
      (StorageAssetTracker.addStorageAssetTrackingTuple keyEq StorageAssetTracker.accepting
        (StorageAssetTracker.constructed (utf8 "sqlite") 0)
        (StorageAssetTracker.pump 1)).storageAssetTrackerTuplesCache =
        [StorageAssetTracker.pump 1] := by
    intro keyEq
    rw [StorageAssetTracker.cache_after_successful_add keyEq StorageAssetTracker.accepting
      (StorageAssetTracker.constructed (utf8 "sqlite") 0) (StorageAssetTracker.pump 1) rfl rfl]
    rfl
  have hgen : ∀ keyEq : StorageAssetTracker.KeyEqual,
      keyEq (StorageAssetTracker.pump 2) (StorageAssetTracker.pump 1) = true →
      StorageAssetTracker.findStorageAssetTrackingCache keyEq
        (StorageAssetTracker.addStorageAssetTrackingTuple keyEq
          StorageAssetTracker.accepting (StorageAssetTracker.constructed (utf8 "sqlite") 0)
          (StorageAssetTracker.pump 1))
        (StorageAssetTracker.pump 2) = some (StorageAssetTracker.pump 1) ∧
      StorageAssetTracker.checkStorageAssetTrackingCache keyEq
        (StorageAssetTracker.addStorageAssetTrackingTuple keyEq
          StorageAssetTracker.accepting (StorageAssetTracker.constructed (utf8 "sqlite") 0)
          (StorageAssetTracker.pump 1))
        (StorageAssetTracker.pump 2) = false := by
    intro keyEq heq
    have hfind : StorageAssetTracker.find keyEq [StorageAssetTracker.pump 1]
        (StorageAssetTracker.pump 2) = some (StorageAssetTracker.pump 1) := by
      simp [StorageAssetTracker.find, heq]
    constructor
    · simp only [StorageAssetTracker.findStorageAssetTrackingCache, hcache keyEq, hfind]
    · simp only [StorageAssetTracker.checkStorageAssetTrackingCache, hcache keyEq, hfind]
      decide
  exact ⟨hgen StorageAssetTracker.sameServiceAsset (by decide), hgen⟩

/-- C12, amended: `checkStorageAssetTrackingCache(tuple)` returns true exactly
when `findStorageAssetTrackingCache(tuple)` returns a non-null entry whose
m_maxCount is greater than or equal to the m_maxCount of the tuple. -/
theorem StorageAssetTracker.check_iff_found_with_count {δ : Type}
    (keyEq : StorageAssetTracker.KeyEqual) (self : StorageAssetTracker δ)
    (tuple : StorageAssetTrackingTuple) :
    StorageAssetTracker.checkStorageAssetTrackingCache keyEq self tuple = true ↔
      ∃ it, StorageAssetTracker.findStorageAssetTrackingCache keyEq self tuple = some it ∧
        it.m_maxCount ≥ tuple.m_maxCount := by
  unfold StorageAssetTracker.checkStorageAssetTrackingCache
    StorageAssetTracker.findStorageAssetTrackingCache
  cases hf : StorageAssetTracker.find keyEq self.storageAssetTrackerTuplesCache tuple with
  | none => simp
  | some found => simp

/-- C15: for a key equality that is reflexive, symmetric and transitive and a
cache without two equal entries, `checkStorageAssetTrackingCache(tuple)`
returns true exactly when the cache holds an entry equal to the tuple whose
m_maxCount is at least the m_maxCount of the tuple; and when the tuple is
absent and the database operation of `addStorageAssetTrackingTuple(tuple)`
succeeds, the check of the tuple on the tracker it leaves returns true. -/
theorem StorageAssetTracker.check_iff_entry_with_count {δ : Type}
    (keyEq : StorageAssetTracker.KeyEqual) (client : ManagementClient δ)
    (self : StorageAssetTracker δ) (tuple : StorageAssetTrackingTuple)
    (hrefl : ∀ a, keyEq a a = true)
    (hsymm : ∀ a b, keyEq a b = keyEq b a)
    (htrans : ∀ a b c, keyEq a b = true → keyEq b c = true → keyEq a c = true)
    (hset : self.storageAssetTrackerTuplesCache.Pairwise (fun a b => keyEq a b = false)) :
    (StorageAssetTracker.checkStorageAssetTrackingCache keyEq self tuple = true ↔
      ∃ entry ∈ self.storageAssetTrackerTuplesCache,
        keyEq tuple entry = true ∧ entry.m_maxCount ≥ tuple.m_maxCount) ∧
    (StorageAssetTracker.find keyEq self.storageAssetTrackerTuplesCache tuple = none →
      (client.addAssetTrackingTuple tuple.m_serviceName tuple.m_pluginName tuple.m_assetName
        tuple.m_eventName tuple.m_datapoints tuple.m_maxCount self.mgt).1 = true →
      StorageAssetTracker.checkStorageAssetTrackingCache keyEq
        (StorageAssetTracker.addStorageAssetTrackingTuple keyEq client self tuple) tuple =
        true) := by
  constructor
  · constructor
    · intro h
      unfold StorageAssetTracker.checkStorageAssetTrackingCache at h
      cases hf : StorageAssetTracker.find keyEq self.storageAssetTrackerTuplesCache tuple with
      | none => simp [hf] at h
      | some found =>
        simp only [hf] at h
        refine ⟨found, List.mem_of_find?_eq_some hf, List.find?_some hf, ?_⟩
        by_contra hlt
        simp [hlt] at h
    · rintro ⟨entry, hmem, heq, hcount⟩
      have hf := StorageAssetTracker.find_eq_of_mem keyEq hsymm htrans
        self.storageAssetTrackerTuplesCache hset tuple entry hmem heq
      simp [StorageAssetTracker.checkStorageAssetTrackingCache, hf, hcount]
  · intro habsent hok
    have hcache := StorageAssetTracker.cache_after_successful_add keyEq client self tuple
      habsent hok
    simp [StorageAssetTracker.checkStorageAssetTrackingCache, hcache,
      StorageAssetTracker.find, hrefl]

/-- The key equality `sameNames` is reflexive. -/
theorem StorageAssetTracker.sameNames_refl (a : StorageAssetTrackingTuple) :
    StorageAssetTracker.sameNames a a = true := by
  simp [StorageAssetTracker.sameNames]

/-- The check at two concrete tuples under `sameNames`: with the tuple for
"pump" cached with maxCount 3, the check of the same tuple with maxCount 2
returns true; and the check of a tuple right after it was added with the
database up returns true. -/
theorem StorageAssetTracker.check_iff_entry_with_count_witness :
    StorageAssetTracker.checkStorageAssetTrackingCache StorageAssetTracker.sameNames
        (StorageAssetTracker.addStorageAssetTrackingTuple StorageAssetTracker.sameNames
          StorageAssetTracker.accepting (StorageAssetTracker.constructed (utf8 "sqlite") 0)
          (StorageAssetTracker.pump 3))
        (StorageAssetTracker.pump 2) = true ∧
    StorageAssetTracker.checkStorageAssetTrackingCache StorageAssetTracker.sameNames
        (StorageAssetTracker.addStorageAssetTrackingTuple StorageAssetTracker.sameNames
          StorageAssetTracker.accepting (StorageAssetTracker.constructed (utf8 "sqlite") 0)
          (StorageAssetTracker.pump 3))
        (StorageAssetTracker.pump 3) = true :=
  ⟨(StorageAssetTracker.check_iff_entry_with_count StorageAssetTracker.sameNames
      StorageAssetTracker.accepting
      (StorageAssetTracker.addStorageAssetTrackingTuple StorageAssetTracker.sameNames
        StorageAssetTracker.accepting (StorageAssetTracker.constructed (utf8 "sqlite") 0)
        (StorageAssetTracker.pump 3))
      (StorageAssetTracker.pump 2)
      StorageAssetTracker.sameNames_refl StorageAssetTracker.sameNames_symm
      StorageAssetTracker.sameNames_trans (by decide)).1.2
      ⟨StorageAssetTracker.pump 3, by decide, by decide, by decide⟩,
   (StorageAssetTracker.check_iff_entry_with_count StorageAssetTracker.sameNames
      StorageAssetTracker.accepting (StorageAssetTracker.constructed (utf8 "sqlite") 0)
      (StorageAssetTracker.pump 3)
      StorageAssetTracker.sameNames_refl StorageAssetTracker.sameNames_symm
      StorageAssetTracker.sameNames_trans (by decide)).2 (by decide) (by decide)⟩

/-! ## The plugin name of the tracker -/

/-- A string without NUL is the text its `c_str()` stands for. -/
theorem OCS.c_str_of_no_nul (s : String) (h : Char.ofNat 0 ∉ s.data) : OCS.c_str s = s := by
  have htake : s.data.takeWhile (fun ch => ch != Char.ofNat 0) = s.data := by
    rw [List.takeWhile_eq_self_iff]
    intro x hx
    have hne : x ≠ Char.ofNat 0 := fun hxe => h (hxe ▸ hx)
    simpa using hne
  unfold OCS.c_str
  rw [htake]

/-- C13, as stated, fails: for the response that writes the member
"access_token" as a, NUL (escaped), b, the parser gives an object whose member
has the three characters a, NUL, b as its string value, and `extractToken`
returns "a", not that value. -/
theorem OCS.extractToken_cuts_at_nul :
    OCS.escapedNul.parse (OCS.c_str "\x7b\"access_token\":\"a\\u0000b\"\x7d") =
      some (OCS.Json.object [("access_token", OCS.Json.string "a\x00b")]) ∧
    OCS.extractToken OCS.escapedNul "\x7b\"access_token\":\"a\\u0000b\"\x7d" = some "a" ∧
    (some "a" : Option String) ≠ some "a\x00b" := by
  refine ⟨by rfl, by rfl, by decide⟩

/-- C13, amended: `extractToken` returns the value of the member "access_token"
up to its first NUL character, which is the whole value when it holds no NUL,
when the response parses as an object that has the member with a string
value; and the empty string when the response does not parse and when it
parses as an object without the member. -/
theorem OCS.extractToken_access_token (env : OCS.Environment) (response : String) :
    (∀ members value, env.parse (OCS.c_str response) = some (OCS.Json.object members) →
      members.lookup "access_token" = some (OCS.Json.string value) →
      OCS.extractToken env response = some (OCS.c_str value) ∧
      (Char.ofNat 0 ∉ value.data → OCS.extractToken env response = some value)) ∧
    (env.parse (OCS.c_str response) = none → OCS.extractToken env response = some "") ∧
    (∀ members, env.parse (OCS.c_str response) = some (OCS.Json.object members) →
      members.lookup "access_token" = none →
      OCS.extractToken env response = some "") := by
  refine ⟨fun members value hp hm => ?_, fun hp => ?_, fun members hp hm => ?_⟩
  · have hcut : OCS.extractToken env response = some (OCS.c_str value) := by
      simp [OCS.extractToken, hp, hm]
    exact ⟨hcut, fun hno => by rw [hcut, OCS.c_str_of_no_nul value hno]⟩
  · simp [OCS.extractToken, hp]
  · simp [OCS.extractToken, hp, hm]

/-- The token of three concrete responses: an object with the member, a text
that does not parse, an object without the member. -/
theorem OCS.extractToken_access_token_witness :
    OCS.extractToken (OCS.answering true 200 "") "token abc" = some "abc" ∧
    OCS.extractToken (OCS.answering true 200 "") "<html>" = some "" ∧
    OCS.extractToken (OCS.answering true 200 "") "no token" = some "" :=
  ⟨((OCS.extractToken_access_token (OCS.answering true 200 "") "token abc").1
      [("access_token", OCS.Json.string "abc")] "abc" rfl rfl).2 (by decide),
   (OCS.extractToken_access_token (OCS.answering true 200 "") "<html>").2.1 rfl,
   (OCS.extractToken_access_token (OCS.answering true 200 "") "no token").2.2
      [("error", OCS.Json.string "invalid_client")] rfl rfl⟩

/-- C14: `retrieveToken` returns `extractToken(response)` when the token request
comes back with a status code from 200 to 399, and the empty string for every
other status code and when sending the request throws. -/
theorem OCS.retrieveToken_by_status (env : OCS.Environment) (clientId clientSecret : String) :
    (∀ httpCode response,
      env.sendRequest
        { host := env.OCS_HOST, authMethod := "a", method := "POST",
          path := env.URL_RETRIEVE_TOKEN,
          header := [("Content-Type", "application/x-www-form-urlencoded"),
                     ("Accept", " text/plain")],
          payload := env.StringReplace
            (env.StringReplace env.PAYLOAD_RETRIEVE_TOKEN "CLIENT_ID_PLACEHOLDER"
              (env.urlEncode clientId))
            "CLIENT_SECRET_ID_PLACEHOLDER" (env.urlEncode clientSecret) } =
        Except.ok (httpCode, response) →
      (200 ≤ httpCode ∧ httpCode ≤ 399 →
        OCS.retrieveToken env clientId clientSecret = OCS.extractToken env response) ∧
      (httpCode < 200 ∨ 399 < httpCode →
        OCS.retrieveToken env clientId clientSecret = some "")) ∧
    (∀ what,
      env.sendRequest
        { host := env.OCS_HOST, authMethod := "a", method := "POST",
          path := env.URL_RETRIEVE_TOKEN,
          header := [("Content-Type", "application/x-www-form-urlencoded"),
                     ("Accept", " text/plain")],
          payload := env.StringReplace
            (env.StringReplace env.PAYLOAD_RETRIEVE_TOKEN "CLIENT_ID_PLACEHOLDER"
              (env.urlEncode clientId))
            "CLIENT_SECRET_ID_PLACEHOLDER" (env.urlEncode clientSecret) } =
        Except.error what →
      OCS.retrieveToken env clientId clientSecret = some "") := by
  refine ⟨fun httpCode response hs => ⟨fun hin => ?_, fun hout => ?_⟩, fun what hs => ?_⟩
  · simp [OCS.retrieveToken, hs, hin]
  · have hnot : ¬ (200 ≤ httpCode ∧ httpCode ≤ 399) := by omega
    simp only [OCS.retrieveToken, hs, ge_iff_le, if_neg hnot]
  · simp [OCS.retrieveToken, hs]

/-- The token at three concrete answers of the service: status 200, status 404,
connection refused. -/
theorem OCS.retrieveToken_by_status_witness :
    OCS.retrieveToken (OCS.answering true 200 "token abc") "id" "secret" = some "abc" ∧
    OCS.retrieveToken (OCS.answering true 404 "token abc") "id" "secret" = some "" ∧
    OCS.retrieveToken (OCS.answering false 200 "token abc") "id" "secret" = some "" :=
  ⟨((OCS.retrieveToken_by_status (OCS.answering true 200 "token abc") "id" "secret").1
      200 "token abc" rfl).1 (by decide),
   ((OCS.retrieveToken_by_status (OCS.answering true 404 "token abc") "id" "secret").1
      404 "token abc" rfl).2 (by decide),
   (OCS.retrieveToken_by_status (OCS.answering false 200 "token abc") "id" "secret").2
      "Connection refused" rfl⟩

/-! ## The test card -/

/-- The nested loops write three bytes for every row and column. -/
theorem Testcard.length_fill (rows width : Int) (pixel : Nat → Nat → List Nat)
    (h3 : ∀ i j, (pixel i j).length = 3) :
    (Testcard.fill rows width pixel).length = rows.toNat * (width.toNat * 3) := by
  have hinner : ∀ (i : Nat) (m : Nat),
      ((List.range m).flatMap (fun j => pixel i j)).length = m * 3 := by
    intro i m
    induction m with
    | zero => simp
    | succ m ih =>
      rw [List.range_succ, List.flatMap_append, List.length_append, ih]
      simp [h3, Nat.succ_mul]
  have houter : ∀ n : Nat,
      ((List.range n).flatMap
        (fun i => (List.range width.toNat).flatMap (fun j => pixel i j))).length =
        n * (width.toNat * 3) := by
    intro n
    induction n with
    | zero => simp
    | succ n ih =>
      rw [List.range_succ, List.flatMap_append, List.length_append, ih]
      simp [hinner, Nat.succ_mul]
  exact houter rows.toNat

/-- An `int` result that fits is not changed by the wrap. -/
theorem Testcard.wrapInt_of_fits (x : Int) (h1 : 0 ≤ x) (h2 : x < 2147483648) :
    Testcard.wrapInt x = x := by
  unfold Testcard.wrapInt
  norm_num
  omega

/-- The conversion to `size_t` keeps a value that is not negative. -/
theorem Testcard.toSize_of_nat (x : Nat) : Testcard.toSize (x : Int) = x % 2 ^ 64 := by
  unfold Testcard.toSize
  norm_num
  omega

/-- The number of bytes the five loops of the 24-bit case write, for a height
and a width that are not negative. -/
theorem Testcard.length_written24 (shades : Testcard.Shades) (h w : Nat) :
    (Testcard.written24 shades (h : Int) (w : Int)).length = (4 * (h / 8) + h / 2) * w * 3 := by
  have h8 : ((h : Int).tdiv 8).toNat = h / 8 := by
    rw [Int.tdiv_eq_ediv (by omega) (by omega)]; omega
  have h2 : ((h : Int).tdiv 2).toNat = h / 2 := by
    rw [Int.tdiv_eq_ediv (by omega) (by omega)]; omega
  simp only [Testcard.written24, List.length_append]
  rw [Testcard.length_fill _ _ (fun i _ => [shades.line i, 0, 0]) (fun _ _ => rfl),
    Testcard.length_fill _ _ (fun i _ => [0, shades.line i, 0]) (fun _ _ => rfl),
    Testcard.length_fill _ _ (fun i _ => [0, 0, shades.line i]) (fun _ _ => rfl),
    Testcard.length_fill _ _ (fun i _ => [shades.line i, shades.line i, shades.line i])
      (fun _ _ => rfl),
    Testcard.length_fill _ _ (fun i j => [shades.red i, shades.green i, j % 256])
      (fun _ _ => rfl), h8, h2, Int.toNat_ofNat]
  ring

/-- C17, as stated, fails: for imageHeight = imageWidth = 65536 the product
imageHeight * imageWidth * 3 does not fit an `int`; it wraps to 0, so `malloc`
is asked for 0 bytes, and the five loops write 12884901888 bytes, although
65536 is a multiple of 8. -/
theorem Testcard.written24_exceeds_allocated :
    Testcard.allocated24 65536 65536 = 0 ∧
    (Testcard.written24 Testcard.ramp 65536 65536).length = 12884901888 ∧
    Testcard.allocated24 65536 65536 < (Testcard.written24 Testcard.ramp 65536 65536).length ∧
    (65536 : Int) % 8 = 0 := by
  have hlen : (Testcard.written24 Testcard.ramp 65536 65536).length = 12884901888 := by
    have h := Testcard.length_written24 Testcard.ramp 65536 65536
    simpa using h
  have halloc : Testcard.allocated24 65536 65536 = 0 := by decide
  refine ⟨halloc, hlen, ?_, by decide⟩
  rw [halloc, hlen]
  decide

/-- C17, amended: for a height h >= 0 and a width w >= 0 whose product
h * w * 3 fits an `int` (is below 2^31), `malloc` is asked for h * w * 3 bytes
and the five loops of the 24-bit case write (4*(h/8) + h/2) * w * 3 bytes from
the start of the buffer on; that is never more than the bytes allocated, and
it is all of them exactly when h is a multiple of 8 or w is 0. -/
theorem Testcard.written24_within_allocated (shades : Testcard.Shades) (h w : Int)
    (hh : 0 ≤ h) (hw : 0 ≤ w) (hfit : h * w * 3 < 2 ^ 31) :
    ((Testcard.written24 shades h w).length : Int) = (4 * (h / 8) + h / 2) * w * 3 ∧
    (Testcard.allocated24 h w : Int) = h * w * 3 ∧
    (Testcard.written24 shades h w).length ≤ Testcard.allocated24 h w ∧
    ((Testcard.written24 shades h w).length = Testcard.allocated24 h w ↔
      (h % 8 = 0 ∨ w = 0)) := by
  obtain ⟨n, rfl⟩ := Int.eq_ofNat_of_zero_le hh
  obtain ⟨m, rfl⟩ := Int.eq_ofNat_of_zero_le hw
  have hlen := Testcard.length_written24 shades n m
  have hnm : n * m * 3 < 2147483648 := by
    have h := hfit
    norm_num at h
    exact_mod_cast h
  have halloc : Testcard.allocated24 (n : Int) (m : Int) = n * m * 3 := by
    unfold Testcard.allocated24
    have hcast : ((n : Int) * (m : Int)) = ((n * m : Nat) : Int) := by push_cast; rfl
    have hcast3 : (((n * m : Nat) : Int) * 3) = ((n * m * 3 : Nat) : Int) := by push_cast; rfl
    rw [hcast, Testcard.wrapInt_of_fits ((n * m : Nat) : Int) (by omega) (by omega), hcast3,
      Testcard.wrapInt_of_fits ((n * m * 3 : Nat) : Int) (by omega) (by omega),
      Testcard.toSize_of_nat]
    have h64 : (2 : Nat) ^ 64 = 18446744073709551616 := by norm_num
    omega
  have hrows : 4 * (n / 8) + n / 2 ≤ n := by omega
  have hle : (4 * (n / 8) + n / 2) * m * 3 ≤ n * m * 3 :=
    Nat.mul_le_mul_right 3 (Nat.mul_le_mul_right m hrows)
  refine ⟨?_, ?_, ?_, ?_⟩
  · rw [hlen]; push_cast; rfl
  · rw [halloc]; push_cast; rfl
  · rw [hlen, halloc]; exact hle
  · rw [hlen, halloc]
    constructor
    · intro heq
      by_cases hm : m = 0
      · right; exact_mod_cast hm
      · left
        have hm3 : 0 < m * 3 := by omega
        have h1 : (4 * (n / 8) + n / 2) * (m * 3) = n * (m * 3) := by
          rw [← Nat.mul_assoc, ← Nat.mul_assoc]; exact heq
        have h2 : 4 * (n / 8) + n / 2 = n := Nat.eq_of_mul_eq_mul_right hm3 h1
        omega
    · rintro (h8 | h0)
      · have h2 : 4 * (n / 8) + n / 2 = n := by omega
        rw [h2]
      · have hm : m = 0 := by exact_mod_cast h0
        subst hm
        simp

/-- The 24-bit case at 9 rows of 2 pixels: 54 bytes are allocated and 48 are
written, so the last row is left as `malloc` gave it. -/
theorem Testcard.written24_within_allocated_witness :
    (0 : Int) ≤ 9 ∧ (0 : Int) ≤ 2 ∧ (9 : Int) * 2 * 3 < 2 ^ 31 ∧
    ((Testcard.written24 Testcard.ramp 9 2).length : Int) = (4 * (9 / 8) + 9 / 2) * 2 * 3 ∧
    (Testcard.allocated24 9 2 : Int) = 9 * 2 * 3 ∧
    (Testcard.written24 Testcard.ramp 9 2).length ≤ Testcard.allocated24 9 2 ∧
    ((Testcard.written24 Testcard.ramp 9 2).length = Testcard.allocated24 9 2 ↔
      ((9 : Int) % 8 = 0 ∨ (2 : Int) = 0)) :=
  ⟨by decide, by decide, by decide,
   Testcard.written24_within_allocated Testcard.ramp 9 2 (by decide) (by decide) (by decide)⟩

end Fledge
